import Mathlib

/-!
Espruino STM32 bootloader utilities (`targets/stm32_boot/utils.c`) and the
12x20 font wrapper (`libs/graphics/jswrap_font_12x20.c`).

A shallow embedding of the transport ring buffers, the boot-button gate, the
application jump and the hardware bring-up of the bootloader, and of the font
tables with the call that installs them, followed by the properties
established about them.

Conventions of the embedding:

* `int` indices are natural numbers; every update is `(i + 1) &&& BUFFERMASK`
  exactly as in the source.
* a `char` cell of a buffer holds a bit pattern; storing a value keeps its low
  eight bits (`% 256`).  Reading a cell through `(unsigned char)` gives the
  pattern in `0..255`; reading it as plain `char` depends on whether plain
  `char` is signed, which C leaves to the platform and which is therefore an
  explicit parameter of the functions that read a cell as plain `char`.
* functions that mutate the globals take the state and return the new state,
  together with the returned value where there is one.
-/

set_option linter.unusedVariables false

namespace StmBoot

/-! ## Data model -/

/-- The constant `#define BUFFERMASK 8191`; both arrays have `BUFFERMASK+1` cells. -/
def BUFFERMASK : Nat := 8191

/-- The globals `rxBuffer`, `rxHead`, `rxTail`, `txBuffer`, `txHead`, `txTail`. -/
structure BootState where
  rxBuffer : Nat → Nat
  rxHead : Nat
  rxTail : Nat
  txBuffer : Nat → Nat
  txHead : Nat
  txTail : Nat

/-- The state at start-up: zero-initialised arrays, `rxHead=0, rxTail=0`,
`txHead=0, txTail=0`. -/
def initState : BootState :=
  { rxBuffer := fun _ => 0, rxHead := 0, rxTail := 0,
    txBuffer := fun _ => 0, txHead := 0, txTail := 0 }

/-- Conversion of a value to `char` storage: the low eight bits. -/
def toCharBits (v : Nat) : Nat := v % 256

/-- The `(unsigned char)` reading of a stored cell. -/
def asUnsignedChar (bits : Nat) : Nat := bits % 256

/-- The plain `char` reading of a stored cell, promoted to `int`: sign-extended
when plain `char` is signed, zero-extended otherwise. -/
def charToInt (plainCharSigned : Bool) (bits : Nat) : Int :=
  if plainCharSigned && decide (128 ≤ bits % 256) then ((bits % 256 : Nat) : Int) - 256
  else ((bits % 256 : Nat) : Int)

/-! ## Ring buffer operations -/

/-- Embedding of
`int jshGetCharToTransmit(IOEventFlags device)`:
`if (txHead == txTail) return -1; char d = txBuffer[txTail];`
`txTail = (txTail+1) & BUFFERMASK; return d;`. -/
def jshGetCharToTransmit (plainCharSigned : Bool) (s : BootState) (device : Nat) :
    Int × BootState :=
  if s.txHead = s.txTail then (-1, s)
  else
    let d := charToInt plainCharSigned (s.txBuffer s.txTail)
    (d, { s with txTail := (s.txTail + 1) &&& BUFFERMASK })

/-- Embedding of
`void jshPushIOCharEvent(IOEventFlags channel, char charData)`:
`rxBuffer[rxHead] = charData; rxHead = (rxHead+1) & BUFFERMASK;`. -/
def jshPushIOCharEvent (s : BootState) (channel : Nat) (charData : Nat) : BootState :=
  { s with
    rxBuffer := fun i => if i = s.rxHead then toCharBits charData else s.rxBuffer i
    rxHead := (s.rxHead + 1) &&& BUFFERMASK }

/-- Embedding of `int _getc()`:
`if (rxHead == rxTail) return -1; unsigned char d = (unsigned char)rxBuffer[rxTail];`
`rxTail = (rxTail+1) & BUFFERMASK; return d;`. -/
def _getc (s : BootState) : Int × BootState :=
  if s.rxHead = s.rxTail then (-1, s)
  else
    let d := asUnsignedChar (s.rxBuffer s.rxTail)
    ((d : Int), { s with rxTail := (s.rxTail + 1) &&& BUFFERMASK })

/-- Embedding of `unsigned char _getc_blocking()`:
`int c = _getc(); while (c<0) c=_getc(); return c;`.
The fuel bounds the number of calls of `_getc` (polls); `none` means the loop is
still spinning when the fuel is used up. -/
def _getc_blocking : Nat → BootState → Option (Nat × BootState)
  | 0, _ => none
  | fuel + 1, s =>
    let r := _getc s
    if r.1 < 0 then _getc_blocking fuel r.2
    else some ((r.1 % 256).toNat, r.2)

/-- Embedding of `void _putc(char charData)`:
`txBuffer[txHead] = charData; txHead = (txHead+1) & BUFFERMASK;`. -/
def _putc (s : BootState) (charData : Nat) : BootState :=
  { s with
    txBuffer := fun i => if i = s.txHead then toCharBits charData else s.txBuffer i
    txHead := (s.txHead + 1) &&& BUFFERMASK }

/-! ## Drivers: sequences of calls -/

/-- Calls `jshPushIOCharEvent` once for every byte of the list, in order. -/
def pushAll (s : BootState) (channel : Nat) : List Nat → BootState
  | [] => s
  | c :: cs => pushAll (jshPushIOCharEvent s channel c) channel cs

/-- Calls `_getc` the given number of times and collects the returned values. -/
def getcN : Nat → BootState → List Int × BootState
  | 0, s => ([], s)
  | n + 1, s =>
    let r := _getc s
    let rest := getcN n r.2
    (r.1 :: rest.1, rest.2)

/-- The number of consecutive calls of `_getc` that return a byte before one
returns `-1`, looking at no more than `fuel` calls. -/
def rxDrainCount : Nat → BootState → Nat
  | 0, _ => 0
  | fuel + 1, s =>
    let r := _getc s
    if r.1 < 0 then 0 else rxDrainCount fuel r.2 + 1

/-- The bytes waiting in the RX buffer, oldest first, as the indices describe
them: the cells `rxTail`, `rxTail+1`, ... up to (not including) `rxHead`, modulo
8192, each read through `(unsigned char)`. -/
def rxContent (s : BootState) : List Nat :=
  (List.range ((s.rxHead + 8192 - s.rxTail) % 8192)).map
    (fun j => asUnsignedChar (s.rxBuffer ((s.rxTail + j) % 8192)))

/-! ## Boot button -/

/-- The board configuration and the input hardware that `platform_config.h` and
the peripheral library supply: the `pinInfo` table, the enumeration bases
`JSH_PIN0` and `JSH_PORTA`, the address of `GPIOA`, the button's pin index and
active state, and `GPIO_ReadInputDataBit`, the level the hardware reports for a
port address and a pin mask. -/
structure Board where
  pinInfoPin : Nat → Int
  pinInfoPort : Nat → Int
  JSH_PIN0 : Int
  JSH_PORTA : Int
  GPIOA : Int
  BTN1_PININDEX : Nat
  BTN1_ONSTATE : Int
  GPIO_ReadInputDataBit : Int → Nat → Nat

/-- Embedding of `stmPin`: `(uint16_t)(1 << (pin-JSH_PIN0))`. -/
def stmPin (b : Board) (ipin : Nat) : Nat :=
  (1 <<< (b.pinInfoPin ipin - b.JSH_PIN0).toNat) % 65536

/-- Embedding of `stmPort`: `(char*)GPIOA + (port-JSH_PORTA)*0x0400`. -/
def stmPort (b : Board) (pin : Nat) : Int :=
  b.GPIOA + (b.pinInfoPort pin - b.JSH_PORTA) * 0x0400

/-- Embedding of `bool jshPinGetValue(Pin pin)`:
`return GPIO_ReadInputDataBit(stmPort(pin), stmPin(pin)) != 0;`. -/
def jshPinGetValue (b : Board) (pin : Nat) : Bool :=
  b.GPIO_ReadInputDataBit (stmPort b pin) (stmPin b pin) != 0

/-- Embedding of `bool isButtonPressed()`:
`return jshPinGetValue(BTN1_PININDEX) == BTN1_ONSTATE;`
(the `bool` is promoted to `int` for the comparison). -/
def isButtonPressed (b : Board) : Bool :=
  (if jshPinGetValue b b.BTN1_PININDEX then (1 : Int) else 0) == b.BTN1_ONSTATE

/-- The level the hardware reports for the boot button's pin. -/
def buttonLevel (b : Board) : Nat :=
  b.GPIO_ReadInputDataBit (stmPort b b.BTN1_PININDEX) (stmPin b b.BTN1_PININDEX)

/-! ## Jump to the application -/

/-- What a call of `jumpToEspruinoBinary` does: the targets handed to the
control-transfer call `startPtr()`, in order, and the value the function returns
to its caller once control is back with it. -/
structure JumpTrace where
  transfers : List Nat
  result : Bool
deriving DecidableEq

/-- The address `0x08000000 + ESPRUINO_BINARY_ADDRESS + 4` as a 32-bit pointer. -/
def resetHandlerAddress (ESPRUINO_BINARY_ADDRESS : Nat) : Nat :=
  (0x08000000 + ESPRUINO_BINARY_ADDRESS + 4) % 2 ^ 32

/-- Embedding of `bool jumpToEspruinoBinary()`:
`unsigned int *ResetHandler = (unsigned int *)(0x08000000 + ESPRUINO_BINARY_ADDRESS + 4);`
`if (ResetHandler==0 || ResetHandler==0xFFFFFFFF) return false;`
`void (*startPtr)() = *ResetHandler; startPtr(); return true;`.
`mem` gives the 32-bit word stored at an address.  The test is on the pointer
`ResetHandler`, as in the source; the word is read only afterwards. -/
def jumpToEspruinoBinary (ESPRUINO_BINARY_ADDRESS : Nat) (mem : Nat → Nat) : JumpTrace :=
  let ResetHandler := resetHandlerAddress ESPRUINO_BINARY_ADDRESS
  if ResetHandler = 0 ∨ ResetHandler = 0xFFFFFFFF then
    { transfers := [], result := false }
  else
    let startPtr := mem ResetHandler % 2 ^ 32
    { transfers := [startPtr], result := true }

/-- Both RX indices are valid positions of `rxBuffer`, which has 8192 cells. -/
def RxInRange (s : BootState) : Prop := s.rxHead < 8192 ∧ s.rxTail < 8192

instance instDecidableRxInRange (s : BootState) : Decidable (RxInRange s) := by
  unfold RxInRange
  infer_instance

/-- One call of the four buffer operations, with its arguments. -/
inductive Call where
  | pushIOCharEvent (channel charData : Nat)
  | getc
  | putc (charData : Nat)
  | getCharToTransmit (device : Nat)
deriving DecidableEq

/-- Performs one call: the value it returns (`none` for the `void` functions)
and the state it leaves. -/
def runCall (plainCharSigned : Bool) (s : BootState) : Call → Option Int × BootState
  | .pushIOCharEvent channel charData => (none, jshPushIOCharEvent s channel charData)
  | .getc => (some (_getc s).1, (_getc s).2)
  | .putc charData => (none, _putc s charData)
  | .getCharToTransmit device =>
    (some (jshGetCharToTransmit plainCharSigned s device).1,
      (jshGetCharToTransmit plainCharSigned s device).2)

/-- Performs a sequence of calls in order and collects what each returns. -/
def runCalls (plainCharSigned : Bool) : List Call → BootState → List (Option Int) × BootState
  | [], s => ([], s)
  | c :: cs, s =>
    let r := runCall plainCharSigned s c
    let rest := runCalls plainCharSigned cs r.2
    (r.1 :: rest.1, rest.2)

/-- All four indices are valid positions of the 8192-cell arrays. -/
def IndicesInRange (s : BootState) : Prop :=
  s.rxHead < 8192 ∧ s.rxTail < 8192 ∧ s.txHead < 8192 ∧ s.txTail < 8192

/-- The array cell a call reads or writes, as the source has it:
`rxBuffer[rxHead]` in `jshPushIOCharEvent`, `rxBuffer[rxTail]` in `_getc` past
its early return, `txBuffer[txHead]` in `_putc`, `txBuffer[txTail]` in
`jshGetCharToTransmit` past its early return; `none` when the call returns
before touching an array. -/
def accessedIndex (s : BootState) : Call → Option Nat
  | .pushIOCharEvent _ _ => some s.rxHead
  | .getc => if s.rxHead = s.rxTail then none else some s.rxTail
  | .putc _ => some s.txHead
  | .getCharToTransmit _ => if s.txHead = s.txTail then none else some s.txTail

/-! ## Hardware bring-up -/

/-- The build configuration that selects the preprocessor branches of
`initHardware`, with the constants `LED1_PININDEX` and
`ESPRUINO_BINARY_ADDRESS` of `platform_config.h`. -/
structure BuildConfig where
  STM32F1 : Bool
  STM32F2 : Bool
  STM32F3 : Bool
  STM32F4 : Bool
  STM32API2 : Bool
  ESPRUINOBOARD : Bool
  DEBUG : Bool
  LED1_PININDEX : Nat
  ESPRUINO_BINARY_ADDRESS : Nat

/-- The calls `initHardware` makes, directly or through `jshPinOutput`,
`isButtonPressed` and `jumpToEspruinoBinary`.  Clock-enable calls carry the
peripheral set of the branch they come from in their name; `GPIO` calls carry
the port address and pin mask; `startPtr` carries its target. -/
inductive HwCall where
  | RCC_APB1PeriphClockCmd_PWR
  | RCC_AHBPeriphClockCmd_GPIOA_to_GPIOF
  | RCC_APB2PeriphClockCmd_SYSCFG
  | RCC_AHB1PeriphClockCmd_GPIOA_to_GPIOH
  | RCC_APB2PeriphClockCmd_ADC1_GPIOA_to_GPIOG_AFIO
  | GPIO_Init (port : Int) (pin : Nat)
  | GPIO_SetBits (port : Int) (pin : Nat)
  | GPIO_ResetBits (port : Int) (pin : Nat)
  | write_BSRR (port : Int) (pin : Nat)
  | write_BRR (port : Int) (pin : Nat)
  | GPIO_ReadInputDataBit (port : Int) (pin : Nat)
  | jumpToEspruinoBinary
  | startPtr (target : Nat)
  | NVIC_PriorityGroupConfig
  | RCC_PCLK1Config
  | RCC_PCLK2Config
  | GPIO_PinRemapConfig
  | SysTick_CLKSourceConfig
  | SysTick_Config
  | NVIC_SetPriority
  | USB_Init_Hardware
  | USB_Init
  | MX_USB_DEVICE_Init
deriving DecidableEq

/-- The call is a read of an input pin. -/
def HwCall.isPinRead : HwCall → Bool
  | .GPIO_ReadInputDataBit _ _ => true
  | _ => false

/-- The call is the invocation of `jumpToEspruinoBinary`. -/
def HwCall.isJumpCall : HwCall → Bool
  | .jumpToEspruinoBinary => true
  | _ => false

/-- The call is none of these: a pin read, the invocation of
`jumpToEspruinoBinary`, a control transfer `startPtr()`,
`NVIC_PriorityGroupConfig`, `SysTick_Config`. -/
def HwCall.isOther : HwCall → Bool
  | .GPIO_ReadInputDataBit _ _ => false
  | .jumpToEspruinoBinary => false
  | .startPtr _ => false
  | .NVIC_PriorityGroupConfig => false
  | .SysTick_Config => false
  | _ => true

/-- Trace of `void jshPinOutput(Pin pin, bool value)`: `GPIO_Init` of the pin,
then with `STM32API2` `GPIO_SetBits` or `GPIO_ResetBits`, otherwise a write of
`BSRR` or `BRR`. -/
def jshPinOutput (cfg : BuildConfig) (b : Board) (pin : Nat) (value : Bool) : List HwCall :=
  [HwCall.GPIO_Init (stmPort b pin) (stmPin b pin)] ++
    (if cfg.STM32API2 then
      (if value then [HwCall.GPIO_SetBits (stmPort b pin) (stmPin b pin)]
        else [HwCall.GPIO_ResetBits (stmPort b pin) (stmPin b pin)])
    else
      (if value then [HwCall.write_BSRR (stmPort b pin) (stmPin b pin)]
        else [HwCall.write_BRR (stmPort b pin) (stmPin b pin)]))

/-- The clock enables at the top of `initHardware`:
`#if defined(STM32F3)` ... `#elif defined(STM32F2) || defined(STM32F4)` ...
`#else` ... `#endif`. -/
def gpioClockEnables (cfg : BuildConfig) : List HwCall :=
  if cfg.STM32F3 then
    [HwCall.RCC_APB1PeriphClockCmd_PWR, HwCall.RCC_AHBPeriphClockCmd_GPIOA_to_GPIOF]
  else if cfg.STM32F2 || cfg.STM32F4 then
    [HwCall.RCC_APB2PeriphClockCmd_SYSCFG, HwCall.RCC_AHB1PeriphClockCmd_GPIOA_to_GPIOH]
  else
    [HwCall.RCC_APB1PeriphClockCmd_PWR, HwCall.RCC_APB2PeriphClockCmd_ADC1_GPIOA_to_GPIOG_AFIO]

/-- The transport bring-up at the end of `initHardware`:
`#if defined(STM32F1) || defined(STM32F3)` `USB_Init_Hardware(); USB_Init();`
`#else` `MX_USB_DEVICE_Init();` `#endif`. -/
def usbInit (cfg : BuildConfig) : List HwCall :=
  if cfg.STM32F1 || cfg.STM32F3 then [HwCall.USB_Init_Hardware, HwCall.USB_Init]
  else [HwCall.MX_USB_DEVICE_Init]

/-- What a run of `initHardware` does: the calls made, in order, and whether
the function ran to its end (`false`: control went to the application through
`startPtr()` and did not come back). -/
structure BootRun where
  trace : List HwCall
  completed : Bool

/-- The calls of `initHardware` up to and including the button sample: the
clock enables, `GPIO_Init` of the button pin, `jshPinOutput(LED1_PININDEX, 1)`
and the pin read of `isButtonPressed()`. -/
def beforeDecision (cfg : BuildConfig) (b : Board) : List HwCall :=
  gpioClockEnables cfg
    ++ [HwCall.GPIO_Init (stmPort b b.BTN1_PININDEX) (stmPin b b.BTN1_PININDEX)]
    ++ jshPinOutput cfg b cfg.LED1_PININDEX true
    ++ [HwCall.GPIO_ReadInputDataBit (stmPort b b.BTN1_PININDEX) (stmPin b b.BTN1_PININDEX)]

/-- The calls of `initHardware` after the `if (!isButtonPressed())` block:
`NVIC_PriorityGroupConfig`, `RCC_PCLK1Config`, `RCC_PCLK2Config`, with
`ESPRUINOBOARD` and without `DEBUG` `GPIO_PinRemapConfig`, then
`SysTick_CLKSourceConfig`, `SysTick_Config`, `NVIC_SetPriority` and the USB
bring-up. -/
def bootloaderBringUp (cfg : BuildConfig) : List HwCall :=
  [HwCall.NVIC_PriorityGroupConfig, HwCall.RCC_PCLK1Config, HwCall.RCC_PCLK2Config]
    ++ (if cfg.ESPRUINOBOARD && !cfg.DEBUG then [HwCall.GPIO_PinRemapConfig] else [])
    ++ [HwCall.SysTick_CLKSourceConfig, HwCall.SysTick_Config, HwCall.NVIC_SetPriority]
    ++ usbInit cfg

/-- Embedding of `void initHardware()` as a trace of calls: the calls up to the
button sample, then `if (!isButtonPressed()) { jumpToEspruinoBinary(); }`, then
the rest of the bring-up.  `appReturns` says whether the application entered
through `startPtr()` ever returns; when it does not, the trace ends with that
call. -/
def initHardware (cfg : BuildConfig) (b : Board) (mem : Nat → Nat) (appReturns : Bool) :
    BootRun :=
  if isButtonPressed b then
    { trace := beforeDecision cfg b ++ bootloaderBringUp cfg, completed := true }
  else
    let j := jumpToEspruinoBinary cfg.ESPRUINO_BINARY_ADDRESS mem
    let jump := HwCall.jumpToEspruinoBinary :: j.transfers.map HwCall.startPtr
    if j.transfers = [] ∨ appReturns = true then
      { trace := beforeDecision cfg b ++ jump ++ bootloaderBringUp cfg, completed := true }
    else
      { trace := beforeDecision cfg b ++ jump, completed := false }

/-! ## The 12x20 font (`libs/graphics/jswrap_font_12x20.c`) -/

/-- The initialiser of `static const unsigned char fontBitmap[]`, one inner list
per line of the source. -/
def fontBitmapLines : List (List Nat) := [
  ([0, 0, 0, 0, 0, 0, 0, 0, 0, 0, 0, 0, 0, 0, 0, 127] : List Nat),
  ([231, 7, 254, 112, 0, 0, 15, 128, 0, 248, 0, 0, 0, 0, 0, 0] : List Nat),
  ([15, 128, 0, 248, 0, 0, 0, 0, 4, 16, 0, 65, 0, 127, 255, 7] : List Nat),
  ([255, 240, 4, 16, 0, 65, 0, 127, 255, 7, 255, 240, 4, 16, 0, 65] : List Nat),
  ([0, 0, 0, 0, 224, 128, 31, 12, 3, 24, 96, 32, 130, 15, 255, 248] : List Nat),
  ([255, 255, 130, 8, 32, 48, 198, 1, 135, 192, 8, 56, 0, 0, 0, 24] : List Nat),
  ([0, 3, 192, 48, 36, 15, 3, 195, 192, 24, 240, 0, 60, 96, 15, 15] : List Nat),
  ([3, 192, 144, 48, 15, 0, 0, 96, 0, 0, 0, 3, 192, 28, 126, 3] : List Nat),
  ([236, 48, 99, 129, 4, 24, 16, 99, 195, 3, 230, 96, 28, 60, 0, 15] : List Nat),
  ([240, 0, 195, 0, 0, 0, 248, 0, 15, 128, 0, 0, 0, 0, 127, 0] : List Nat),
  ([31, 252, 3, 128, 224, 96, 3, 4, 0, 16, 0, 0, 4, 0, 16, 96] : List Nat),
  ([3, 3, 128, 224, 31, 252, 0, 127, 0, 0, 0, 0, 8, 0, 8, 136] : List Nat),
  ([0, 201, 128, 6, 176, 0, 62, 0, 1, 192, 0, 62, 0, 6, 176, 0] : List Nat),
  ([201, 128, 8, 136, 0, 8, 0, 0, 0, 0, 8, 0, 0, 128, 0, 8] : List Nat),
  ([0, 0, 128, 0, 255, 128, 15, 248, 0, 8, 0, 0, 128, 0, 8, 0] : List Nat),
  ([0, 128, 0, 0, 0, 0, 0, 128, 0, 248, 0, 15, 0, 0, 0, 0] : List Nat),
  ([128, 0, 8, 0, 0, 128, 0, 8, 0, 0, 128, 0, 8, 0, 0, 128] : List Nat),
  ([0, 8, 0, 0, 128, 0, 8, 0, 0, 0, 0, 0, 112, 0, 7, 0] : List Nat),
  ([0, 0, 0, 3, 0, 0, 240, 0, 60, 0, 15, 0, 3, 192, 0, 240] : List Nat),
  ([0, 60, 0, 3, 0, 0, 0, 0, 1, 255, 192, 63, 254, 6, 3, 48] : List Nat),
  ([64, 97, 4, 12, 16, 65, 129, 4, 48, 16, 102, 3, 3, 255, 224, 31] : List Nat),
  ([252, 0, 0, 0, 8, 1, 1, 128, 16, 48, 1, 7, 255, 240, 127, 255] : List Nat),
  ([0, 0, 16, 0, 1, 0, 0, 16, 0, 0, 1, 192, 48, 60, 7, 6] : List Nat),
  ([0, 208, 64, 25, 4, 3, 16, 64, 97, 4, 12, 16, 97, 129, 3, 240] : List Nat),
  ([16, 30, 1, 0, 0, 0, 16, 4, 3, 0, 96, 96, 3, 4, 8, 16] : List Nat),
  ([64, 129, 4, 8, 16, 64, 129, 6, 28, 48, 63, 126, 1, 227, 192, 0] : List Nat),
  ([0, 0, 7, 128, 0, 248, 0, 24, 128, 3, 8, 0, 96, 128, 12, 8] : List Nat),
  ([1, 128, 128, 48, 8, 7, 255, 240, 127, 255, 0, 0, 0, 127, 4, 7] : List Nat),
  ([240, 96, 65, 3, 4, 16, 16, 65, 1, 4, 16, 16, 65, 1, 4, 24] : List Nat),
  ([48, 64, 254, 4, 7, 192, 0, 0, 1, 255, 192, 63, 254, 6, 16, 48] : List Nat),
  ([65, 1, 4, 16, 16, 65, 1, 4, 16, 16, 65, 131, 4, 15, 224, 0] : List Nat),
  ([124, 0, 0, 0, 112, 0, 7, 0, 0, 64, 0, 4, 0, 0, 64, 31] : List Nat),
  ([4, 7, 240, 65, 224, 4, 120, 0, 126, 0, 7, 128, 0, 0, 0, 1] : List Nat),
  ([227, 192, 63, 126, 6, 28, 48, 64, 129, 4, 8, 16, 64, 129, 4, 8] : List Nat),
  ([16, 97, 195, 3, 247, 224, 30, 60, 0, 0, 0, 31, 0, 3, 248, 16] : List Nat),
  ([96, 193, 4, 4, 16, 64, 65, 4, 4, 16, 64, 65, 6, 4, 48, 63] : List Nat),
  ([254, 1, 255, 192, 0, 0, 0, 112, 224, 7, 14, 0, 0, 0, 0, 0] : List Nat),
  ([128, 112, 248, 7, 15, 0, 0, 0, 0, 128, 0, 28, 0, 3, 96, 0] : List Nat),
  ([99, 0, 12, 24, 1, 128, 192, 48, 6, 6, 0, 48, 64, 1, 0, 0] : List Nat),
  ([0, 2, 16, 0, 33, 0, 2, 16, 0, 33, 0, 2, 16, 0, 33, 0] : List Nat),
  ([2, 16, 0, 33, 0, 2, 16, 0, 33, 0, 0, 0, 4, 0, 16, 96] : List Nat),
  ([3, 3, 0, 96, 24, 12, 0, 193, 128, 6, 48, 0, 54, 0, 1, 192] : List Nat),
  ([0, 8, 0, 0, 0, 1, 192, 0, 60, 0, 6, 0, 0, 64, 0, 4] : List Nat),
  ([6, 112, 64, 231, 4, 24, 0, 99, 0, 3, 224, 0, 28, 0, 0, 0] : List Nat),
  ([0, 31, 252, 3, 255, 224, 96, 3, 4, 0, 16, 67, 225, 4, 127, 16] : List Nat),
  ([76, 25, 4, 128, 144, 104, 9, 3, 255, 144, 31, 249, 0, 0, 0, 31] : List Nat),
  ([255, 3, 255, 240, 96, 64, 4, 4, 0, 64, 64, 4, 4, 0, 64, 64] : List Nat),
  ([6, 4, 0, 63, 255, 1, 255, 240, 0, 0, 7, 255, 240, 127, 255, 4] : List Nat),
  ([16, 16, 65, 1, 4, 16, 16, 65, 1, 4, 16, 16, 99, 131, 3, 239] : List Nat),
  ([224, 28, 124, 0, 0, 0, 31, 252, 3, 255, 224, 96, 3, 4, 0, 16] : List Nat),
  ([64, 1, 4, 0, 16, 64, 1, 6, 0, 48, 56, 14, 1, 128, 192, 0] : List Nat),
  ([0, 7, 255, 240, 127, 255, 4, 0, 16, 64, 1, 4, 0, 16, 64, 1] : List Nat),
  ([4, 0, 16, 96, 3, 3, 255, 224, 31, 252, 0, 0, 0, 127, 255, 7] : List Nat),
  ([255, 240, 64, 129, 4, 8, 16, 64, 129, 4, 8, 16, 64, 129, 4, 8] : List Nat),
  ([16, 64, 1, 4, 0, 16, 0, 0, 7, 255, 240, 127, 255, 4, 8, 0] : List Nat),
  ([64, 128, 4, 8, 0, 64, 128, 4, 8, 0, 64, 128, 4, 0, 0, 64] : List Nat),
  ([0, 0, 0, 0, 31, 252, 3, 255, 224, 96, 3, 4, 0, 16, 64, 1] : List Nat),
  ([4, 8, 16, 64, 129, 6, 8, 48, 56, 254, 1, 143, 192, 0, 0, 7] : List Nat),
  ([255, 240, 127, 255, 0, 8, 0, 0, 128, 0, 8, 0, 0, 128, 0, 8] : List Nat),
  ([0, 0, 128, 7, 255, 240, 127, 255, 0, 0, 0, 64, 1, 4, 0, 16] : List Nat),
  ([127, 255, 7, 255, 240, 64, 1, 4, 0, 16, 0, 0, 0, 1, 192, 0] : List Nat),
  ([30, 0, 0, 48, 0, 1, 0, 0, 16, 64, 1, 4, 0, 48, 127, 254] : List Nat),
  ([7, 255, 192, 64, 0, 4, 0, 0, 0, 0, 7, 255, 240, 127, 255, 0] : List Nat),
  ([28, 0, 3, 96, 0, 99, 0, 12, 24, 1, 128, 192, 48, 6, 6, 0] : List Nat),
  ([48, 64, 1, 0, 0, 0, 127, 255, 7, 255, 240, 0, 1, 0, 0, 16] : List Nat),
  ([0, 1, 0, 0, 16, 0, 1, 0, 0, 16, 0, 1, 0, 0, 16, 0] : List Nat),
  ([0, 7, 255, 240, 63, 255, 1, 128, 0, 12, 0, 0, 96, 0, 3, 0] : List Nat),
  ([0, 96, 0, 12, 0, 1, 128, 0, 63, 255, 7, 255, 240, 0, 0, 7] : List Nat),
  ([255, 240, 127, 255, 0, 96, 0, 3, 0, 0, 24, 0, 0, 192, 0, 6] : List Nat),
  ([0, 0, 48, 7, 255, 240, 127, 255, 0, 0, 0, 31, 252, 3, 255, 224] : List Nat),
  ([96, 3, 4, 0, 16, 64, 1, 4, 0, 16, 64, 1, 6, 0, 48, 63] : List Nat),
  ([254, 1, 255, 192, 0, 0, 7, 255, 240, 127, 255, 4, 8, 0, 64, 128] : List Nat),
  ([4, 8, 0, 64, 128, 4, 8, 0, 97, 128, 3, 240, 0, 30, 0, 0] : List Nat),
  ([0, 0, 31, 252, 3, 255, 224, 96, 3, 4, 0, 16, 64, 5, 4, 0] : List Nat),
  ([112, 64, 3, 6, 0, 56, 63, 254, 193, 255, 196, 0, 0, 7, 255, 240] : List Nat),
  ([127, 255, 4, 12, 0, 64, 224, 4, 11, 0, 64, 152, 4, 8, 192, 97] : List Nat),
  ([134, 3, 240, 48, 30, 1, 0, 0, 0, 30, 4, 3, 240, 96, 97, 131] : List Nat),
  ([4, 8, 16, 64, 129, 4, 8, 16, 64, 129, 6, 12, 48, 48, 126, 1] : List Nat),
  ([3, 192, 0, 0, 4, 0, 0, 64, 0, 4, 0, 0, 64, 0, 7, 255] : List Nat),
  ([240, 127, 255, 4, 0, 0, 64, 0, 4, 0, 0, 64, 0, 0, 0, 0] : List Nat),
  ([127, 252, 7, 255, 224, 0, 3, 0, 0, 16, 0, 1, 0, 0, 16, 0] : List Nat),
  ([1, 0, 0, 48, 127, 254, 7, 255, 192, 0, 0, 7, 128, 0, 127, 128] : List Nat),
  ([0, 127, 0, 0, 124, 0, 0, 240, 0, 15, 0, 7, 192, 7, 240, 7] : List Nat),
  ([248, 0, 120, 0, 0, 0, 0, 127, 255, 7, 255, 224, 0, 12, 0, 1] : List Nat),
  ([128, 0, 48, 0, 6, 0, 0, 48, 0, 1, 128, 0, 12, 7, 255, 224] : List Nat),
  ([127, 255, 0, 0, 0, 96, 3, 7, 128, 240, 30, 60, 0, 119, 0, 1] : List Nat),
  ([192, 0, 28, 0, 7, 112, 1, 227, 192, 120, 15, 6, 0, 48, 0, 0] : List Nat),
  ([6, 0, 0, 120, 0, 1, 224, 0, 7, 128, 0, 31, 240, 1, 255, 0] : List Nat),
  ([120, 0, 30, 0, 7, 128, 0, 96, 0, 0, 0, 0, 64, 15, 4, 1] : List Nat),
  ([240, 64, 49, 4, 6, 16, 64, 193, 4, 24, 16, 67, 1, 4, 96, 16] : List Nat),
  ([124, 1, 7, 128, 16, 0, 0, 7, 255, 240, 127, 255, 4, 0, 16, 64] : List Nat),
  ([1, 4, 0, 16, 0, 0, 3, 0, 0, 60, 0, 0, 240, 0, 3, 192] : List Nat),
  ([0, 15, 0, 0, 60, 0, 0, 240, 0, 3, 0, 0, 0, 64, 1, 4] : List Nat),
  ([0, 16, 64, 1, 7, 255, 240, 127, 255, 0, 0, 0, 8, 0, 1, 128] : List Nat),
  ([0, 48, 0, 6, 0, 0, 192, 0, 12, 0, 0, 96, 0, 3, 0, 0] : List Nat),
  ([24, 0, 0, 128, 0, 0, 0, 0, 0, 4, 0, 0, 64, 0, 4, 0] : List Nat),
  ([0, 64, 0, 4, 0, 0, 64, 0, 4, 0, 0, 64, 0, 4, 0, 0] : List Nat),
  ([64, 0, 0, 128, 0, 12, 0, 0, 96, 0, 2, 0, 0, 0, 0, 0] : List Nat),
  ([1, 192, 4, 62, 0, 70, 48, 4, 65, 0, 68, 16, 4, 65, 0, 68] : List Nat),
  ([16, 6, 65, 0, 63, 240, 1, 255, 0, 0, 0, 127, 255, 7, 255, 240] : List Nat),
  ([4, 1, 0, 64, 16, 4, 1, 0, 64, 16, 4, 1, 0, 96, 48, 3] : List Nat),
  ([254, 0, 31, 192, 0, 0, 0, 31, 192, 3, 254, 0, 96, 48, 4, 1] : List Nat),
  ([0, 64, 16, 4, 1, 0, 64, 16, 6, 3, 0, 48, 96, 1, 4, 0] : List Nat),
  ([0, 0, 1, 252, 0, 63, 224, 6, 3, 0, 64, 16, 4, 1, 0, 64] : List Nat),
  ([16, 4, 1, 0, 64, 16, 127, 255, 7, 255, 240, 0, 0, 0, 31, 192] : List Nat),
  ([3, 254, 0, 98, 48, 4, 33, 0, 66, 16, 4, 33, 0, 66, 16, 6] : List Nat),
  ([33, 0, 62, 48, 1, 226, 0, 0, 0, 4, 0, 0, 64, 0, 4, 0] : List Nat),
  ([3, 255, 240, 127, 255, 4, 64, 0, 68, 0, 4, 64, 0, 64, 0, 0] : List Nat),
  ([0, 0, 1, 252, 0, 63, 225, 6, 3, 16, 64, 17, 4, 1, 16, 64] : List Nat),
  ([17, 4, 1, 16, 64, 51, 7, 255, 224, 127, 252, 0, 0, 7, 255, 240] : List Nat),
  ([127, 255, 0, 64, 0, 4, 0, 0, 64, 0, 4, 0, 0, 64, 0, 6] : List Nat),
  ([0, 0, 63, 240, 1, 255, 0, 0, 0, 4, 1, 0, 64, 16, 119, 255] : List Nat),
  ([7, 127, 240, 0, 1, 0, 0, 16, 0, 0, 0, 0, 12, 0, 0, 224] : List Nat),
  ([0, 3, 0, 0, 16, 64, 1, 4, 0, 55, 127, 254, 119, 255, 192, 0] : List Nat),
  ([0, 127, 255, 7, 255, 240, 0, 32, 0, 7, 0, 0, 216, 0, 24, 192] : List Nat),
  ([3, 6, 0, 96, 48, 4, 1, 0, 0, 0, 64, 1, 4, 0, 16, 127] : List Nat),
  ([255, 7, 255, 240, 0, 1, 0, 0, 16, 0, 0, 0, 127, 240, 7, 255] : List Nat),
  ([0, 64, 0, 4, 0, 0, 127, 240, 7, 255, 0, 64, 0, 6, 0, 0] : List Nat),
  ([63, 240, 1, 255, 0, 0, 0, 7, 255, 0, 127, 240, 4, 0, 0, 64] : List Nat),
  ([0, 4, 0, 0, 64, 0, 4, 0, 0, 96, 0, 3, 255, 0, 31, 240] : List Nat),
  ([0, 0, 0, 31, 192, 3, 254, 0, 96, 48, 4, 1, 0, 64, 16, 4] : List Nat),
  ([1, 0, 64, 16, 6, 3, 0, 63, 224, 1, 252, 0, 0, 0, 7, 255] : List Nat),
  ([240, 127, 255, 4, 1, 0, 64, 16, 4, 1, 0, 64, 16, 4, 1, 0] : List Nat),
  ([96, 48, 3, 254, 0, 31, 192, 0, 0, 0, 31, 192, 3, 254, 0, 96] : List Nat),
  ([48, 4, 1, 0, 64, 16, 4, 1, 0, 64, 16, 4, 1, 0, 127, 255] : List Nat),
  ([7, 255, 240, 0, 0, 7, 255, 0, 127, 240, 1, 128, 0, 48, 0, 6] : List Nat),
  ([0, 0, 64, 0, 4, 0, 0, 64, 0, 4, 0, 0, 64, 0, 0, 0] : List Nat),
  ([0, 60, 32, 7, 227, 0, 66, 16, 4, 33, 0, 66, 16, 4, 33, 0] : List Nat),
  ([66, 16, 4, 33, 0, 99, 240, 2, 30, 0, 0, 0, 4, 0, 0, 64] : List Nat),
  ([0, 4, 0, 7, 255, 224, 127, 255, 0, 64, 16, 4, 1, 0, 64, 16] : List Nat),
  ([0, 1, 0, 0, 0, 7, 252, 0, 127, 224, 0, 3, 0, 0, 16, 0] : List Nat),
  ([1, 0, 0, 16, 0, 1, 0, 0, 16, 7, 255, 0, 127, 240, 0, 0] : List Nat),
  ([0, 112, 0, 7, 192, 0, 15, 0, 0, 60, 0, 0, 240, 0, 15, 0] : List Nat),
  ([3, 192, 0, 240, 0, 124, 0, 7, 0, 0, 0, 0, 7, 254, 0, 127] : List Nat),
  ([240, 0, 1, 0, 0, 16, 0, 127, 0, 7, 240, 0, 1, 0, 0, 16] : List Nat),
  ([7, 255, 0, 127, 224, 0, 0, 0, 96, 48, 7, 7, 0, 24, 192, 0] : List Nat),
  ([216, 0, 7, 0, 0, 112, 0, 13, 128, 1, 140, 0, 112, 112, 6, 3] : List Nat),
  ([0, 0, 0, 7, 252, 0, 127, 225, 0, 3, 16, 0, 17, 0, 1, 16] : List Nat),
  ([0, 17, 0, 1, 16, 0, 51, 7, 255, 224, 127, 252, 0, 0, 0, 64] : List Nat),
  ([48, 4, 7, 0, 64, 208, 4, 25, 0, 67, 16, 4, 97, 0, 76, 16] : List Nat),
  ([5, 129, 0, 112, 16, 6, 1, 0, 0, 0, 0, 128, 0, 8, 0, 31] : List Nat),
  ([252, 3, 247, 224, 96, 3, 4, 0, 16, 64, 1, 0, 0, 0, 127, 255] : List Nat),
  ([7, 255, 240, 0, 0, 4, 0, 16, 64, 1, 6, 0, 48, 63, 126, 1] : List Nat),
  ([255, 192, 0, 128, 0, 8, 0, 0, 0, 7, 0, 0, 240, 0, 8, 0] : List Nat),
  ([0, 128, 0, 14, 0, 0, 112, 0, 1, 0, 0, 16, 0, 15, 0, 0] : List Nat),
  ([224, 0, 0, 0, 0, 115, 255, 7, 63, 240, 0, 0, 0, 31, 192, 3] : List Nat),
  ([254, 0, 96, 48, 4, 1, 1, 255, 252, 31, 255, 192, 64, 16, 6, 3] : List Nat),
  ([0, 48, 96, 1, 4, 0, 0, 0, 0, 129, 1, 255, 240, 63, 255, 6] : List Nat),
  ([8, 16, 64, 129, 4, 8, 16, 96, 129, 3, 0, 16, 16, 7, 0, 0] : List Nat),
  ([112, 0, 0, 1, 0, 32, 27, 246, 0, 255, 192, 4, 8, 0, 64, 128] : List Nat),
  ([4, 8, 0, 64, 128, 4, 8, 0, 255, 192, 27, 246, 1, 0, 32, 0] : List Nat),
  ([0, 6, 0, 0, 120, 36, 1, 226, 64, 7, 36, 0, 31, 240, 1, 255] : List Nat),
  ([0, 114, 64, 30, 36, 7, 130, 64, 96, 0, 0, 0, 0, 126, 63, 7] : List Nat),
  ([227, 240, 0, 0, 7, 124, 32, 255, 227, 8, 131, 16, 136, 17, 8, 193] : List Nat),
  ([16, 199, 255, 4, 62, 224, 0, 0, 14, 0, 0, 224, 0, 0, 0, 0] : List Nat),
  ([0, 0, 14, 0, 0, 224, 0, 0, 0, 0, 7, 248, 0, 128, 64, 19] : List Nat),
  ([242, 1, 127, 160, 20, 10, 1, 64, 160, 20, 10, 1, 115, 160, 19, 50] : List Nat),
  ([0, 128, 64, 7, 248, 0, 0, 0, 15, 32, 9, 250, 0, 144, 160, 9] : List Nat),
  ([10, 0, 144, 160, 9, 10, 0, 144, 160, 15, 250, 0, 127, 160, 0, 0] : List Nat),
  ([0, 0, 32, 0, 7, 0, 0, 216, 0, 24, 192, 3, 38, 0, 103, 48] : List Nat),
  ([4, 217, 0, 24, 192, 3, 6, 0, 96, 48, 4, 1, 0, 0, 0, 2] : List Nat),
  ([0, 0, 32, 0, 2, 0, 0, 32, 0, 2, 0, 0, 32, 0, 2, 0] : List Nat),
  ([0, 32, 0, 3, 240, 0, 63, 0, 0, 0, 0, 8, 0, 0, 128, 0] : List Nat),
  ([8, 0, 0, 128, 0, 8, 0, 0, 128, 0, 8, 0, 0, 128, 0, 0] : List Nat),
  ([0, 7, 248, 0, 128, 64, 23, 250, 1, 127, 160, 20, 66, 1, 70, 32] : List Nat),
  ([20, 114, 1, 125, 160, 19, 138, 0, 128, 64, 7, 248, 0, 0, 0, 0] : List Nat),
  ([0, 0, 0, 0, 0, 0, 0, 0, 0, 0, 0, 0, 0, 0, 0, 0] : List Nat),
  ([0, 0, 0, 0, 0, 7, 128, 0, 252, 0, 8, 64, 0, 132, 0, 8] : List Nat),
  ([64, 0, 252, 0, 7, 128, 0, 0, 0, 0, 8, 16, 0, 129, 0, 8] : List Nat),
  ([16, 0, 129, 0, 255, 144, 15, 249, 0, 8, 16, 0, 129, 0, 8, 16] : List Nat),
  ([0, 129, 0, 0, 0, 98, 0, 14, 96, 0, 142, 0, 9, 160, 0, 242] : List Nat),
  ([0, 6, 32, 0, 0, 0, 4, 64, 0, 198, 0, 9, 32, 0, 146, 0] : List Nat),
  ([15, 224, 0, 108, 0, 0, 0, 0, 32, 0, 6, 0, 0, 192, 0, 8] : List Nat),
  ([0, 0, 0, 0, 0, 127, 255, 7, 255, 240, 0, 16, 0, 1, 0, 0] : List Nat),
  ([16, 0, 1, 0, 0, 48, 0, 6, 0, 127, 240, 7, 255, 0, 0, 0] : List Nat),
  ([63, 0, 7, 248, 0, 64, 128, 4, 8, 0, 127, 255, 7, 255, 240, 64] : List Nat),
  ([0, 4, 0, 0, 127, 255, 7, 255, 240, 0, 0, 0, 28, 0, 1, 192] : List Nat),
  ([0, 0, 0, 0, 0, 16, 0, 15, 0, 0, 224, 0, 0, 32, 0, 6] : List Nat),
  ([32, 0, 254, 0, 15, 224, 0, 2, 0, 0, 0, 0, 62, 32, 7, 242] : List Nat),
  ([0, 193, 160, 8, 10, 0, 128, 160, 8, 10, 0, 193, 160, 7, 242, 0] : List Nat),
  ([62, 32, 0, 0, 0, 4, 1, 0, 96, 48, 3, 6, 0, 24, 192, 4] : List Nat),
  ([217, 0, 103, 48, 3, 38, 0, 24, 192, 0, 216, 0, 7, 0, 0, 32] : List Nat),
  ([0, 0, 0, 0, 6, 2, 0, 192, 96, 24, 15, 227, 0, 254, 102, 0] : List Nat),
  ([12, 224, 1, 154, 0, 51, 32, 6, 127, 128, 199, 248, 0, 0, 0, 0] : List Nat),
  ([192, 32, 24, 6, 3, 0, 254, 96, 15, 237, 136, 1, 185, 128, 50, 56] : List Nat),
  ([6, 38, 128, 195, 200, 24, 24, 128, 0, 0, 68, 6, 12, 96, 192, 146] : List Nat),
  ([24, 9, 35, 0, 254, 102, 6, 204, 224, 1, 154, 0, 51, 32, 6, 127] : List Nat),
  ([128, 199, 248, 0, 0, 0, 1, 192, 0, 62, 0, 6, 48, 0, 193, 7] : List Nat),
  ([56, 16, 115, 1, 0, 0, 16, 0, 3, 0, 1, 224, 0, 28, 0, 0] : List Nat),
  ([0, 3, 255, 224, 127, 254, 140, 8, 12, 128, 128, 104, 8, 2, 128, 128] : List Nat),
  ([8, 8, 0, 192, 128, 7, 255, 224, 63, 254, 0, 0, 0, 63, 254, 7] : List Nat),
  ([255, 224, 192, 128, 8, 8, 2, 128, 128, 104, 8, 12, 128, 128, 140, 8] : List Nat),
  ([0, 127, 254, 3, 255, 224, 0, 0, 3, 255, 224, 127, 254, 44, 8, 6] : List Nat),
  ([128, 128, 200, 8, 12, 128, 128, 104, 8, 2, 192, 128, 7, 255, 224, 63] : List Nat),
  ([254, 0, 0, 0, 63, 254, 103, 255, 238, 192, 128, 136, 8, 12, 128, 128] : List Nat),
  ([104, 8, 2, 128, 128, 236, 8, 12, 127, 254, 3, 255, 224, 0, 0, 3] : List Nat),
  ([255, 224, 127, 254, 236, 8, 14, 128, 128, 8, 8, 0, 128, 128, 232, 8] : List Nat),
  ([14, 192, 128, 7, 255, 224, 63, 254, 0, 0, 0, 63, 254, 7, 255, 230] : List Nat),
  ([192, 128, 248, 8, 9, 128, 128, 152, 8, 15, 128, 128, 108, 8, 0, 127] : List Nat),
  ([254, 3, 255, 224, 0, 0, 31, 255, 3, 255, 240, 96, 128, 4, 8, 0] : List Nat),
  ([64, 128, 4, 8, 0, 127, 255, 7, 255, 240, 64, 129, 4, 8, 16, 64] : List Nat),
  ([129, 4, 8, 16, 0, 0, 1, 255, 192, 63, 254, 6, 0, 48, 64, 1] : List Nat),
  ([20, 0, 31, 64, 1, 228, 0, 16, 96, 3, 3, 128, 224, 24, 12, 0] : List Nat),
  ([0, 0, 15, 255, 224, 255, 254, 136, 16, 44, 129, 2, 104, 16, 34, 129] : List Nat),
  ([2, 8, 16, 32, 129, 2, 8, 0, 32, 128, 2, 0, 0, 0, 255, 254] : List Nat),
  ([15, 255, 224, 129, 2, 8, 16, 34, 129, 2, 104, 16, 44, 129, 2, 136] : List Nat),
  ([16, 32, 128, 2, 8, 0, 32, 0, 0, 15, 255, 224, 255, 254, 40, 16] : List Nat),
  ([38, 129, 2, 200, 16, 44, 129, 2, 104, 16, 34, 129, 2, 8, 0, 32] : List Nat),
  ([128, 2, 0, 0, 0, 255, 254, 15, 255, 238, 129, 2, 232, 16, 32, 129] : List Nat),
  ([2, 8, 16, 46, 129, 2, 232, 16, 32, 128, 2, 8, 0, 32, 0, 0] : List Nat),
  ([136, 0, 44, 128, 2, 111, 255, 226, 255, 254, 8, 0, 32, 128, 2, 0] : List Nat),
  ([0, 0, 128, 2, 8, 0, 34, 255, 254, 111, 255, 236, 128, 2, 136, 0] : List Nat),
  ([32, 0, 0, 40, 0, 38, 128, 2, 207, 255, 236, 255, 254, 104, 0, 34] : List Nat),
  ([128, 2, 0, 0, 14, 128, 2, 232, 0, 32, 255, 254, 15, 255, 238, 128] : List Nat),
  ([2, 232, 0, 32, 0, 0, 0, 128, 7, 255, 240, 127, 255, 4, 8, 16] : List Nat),
  ([64, 129, 4, 8, 16, 64, 129, 4, 0, 16, 96, 3, 3, 255, 224, 31] : List Nat),
  ([252, 0, 0, 0, 15, 255, 230, 255, 254, 224, 192, 8, 6, 0, 192, 48] : List Nat),
  ([6, 1, 128, 32, 12, 14, 0, 96, 207, 255, 224, 255, 254, 0, 0, 0] : List Nat),
  ([63, 248, 7, 255, 200, 192, 6, 200, 0, 38, 128, 2, 40, 0, 32, 128] : List Nat),
  ([2, 12, 0, 96, 127, 252, 3, 255, 128, 0, 0, 3, 255, 128, 127, 252] : List Nat),
  ([12, 0, 96, 128, 2, 40, 0, 38, 128, 2, 200, 0, 40, 192, 6, 7] : List Nat),
  ([255, 192, 63, 248, 0, 0, 0, 63, 248, 7, 255, 194, 192, 6, 104, 0] : List Nat),
  ([44, 128, 2, 200, 0, 38, 128, 2, 44, 0, 96, 127, 252, 3, 255, 128] : List Nat),
  ([0, 0, 3, 255, 134, 127, 252, 236, 0, 104, 128, 2, 200, 0, 38, 128] : List Nat),
  ([2, 40, 0, 46, 192, 6, 199, 255, 192, 63, 248, 0, 0, 0, 63, 248] : List Nat),
  ([7, 255, 206, 192, 6, 232, 0, 32, 128, 2, 8, 0, 46, 128, 2, 236] : List Nat),
  ([0, 96, 127, 252, 3, 255, 128, 0, 0, 8, 8, 0, 193, 128, 6, 48] : List Nat),
  ([0, 54, 0, 1, 192, 0, 28, 0, 3, 96, 0, 99, 0, 12, 24, 0] : List Nat),
  ([128, 128, 0, 0, 0, 0, 64, 31, 252, 3, 255, 224, 96, 51, 4, 6] : List Nat),
  ([16, 64, 193, 4, 24, 16, 67, 1, 6, 96, 48, 63, 254, 1, 255, 192] : List Nat),
  ([16, 0, 0, 0, 0, 15, 255, 128, 255, 252, 128, 0, 108, 0, 2, 96] : List Nat),
  ([0, 34, 0, 2, 0, 0, 32, 0, 6, 15, 255, 192, 255, 248, 0, 0] : List Nat),
  ([0, 255, 248, 15, 255, 192, 0, 6, 0, 0, 34, 0, 2, 96, 0, 44] : List Nat),
  ([0, 2, 128, 0, 96, 255, 252, 15, 255, 128, 0, 0, 15, 255, 128, 255] : List Nat),
  ([252, 32, 0, 102, 0, 2, 192, 0, 44, 0, 2, 96, 0, 34, 0, 6] : List Nat),
  ([15, 255, 192, 255, 248, 0, 0, 0, 255, 248, 15, 255, 206, 0, 6, 224] : List Nat),
  ([0, 32, 0, 2, 0, 0, 46, 0, 2, 224, 0, 96, 255, 252, 15, 255] : List Nat),
  ([128, 0, 0, 12, 0, 0, 240, 0, 3, 192, 0, 15, 0, 32, 63, 230] : List Nat),
  ([3, 254, 192, 240, 8, 60, 0, 15, 0, 0, 192, 0, 0, 0, 7, 255] : List Nat),
  ([240, 127, 255, 0, 129, 0, 8, 16, 0, 129, 0, 8, 16, 0, 129, 0] : List Nat),
  ([12, 48, 0, 126, 0, 3, 192, 0, 0, 0, 63, 255, 7, 255, 240, 65] : List Nat),
  ([4, 4, 16, 48, 65, 1, 4, 16, 16, 99, 1, 3, 248, 48, 28, 254] : List Nat),
  ([0, 7, 192, 0, 0, 0, 1, 192, 4, 62, 4, 70, 48, 100, 65, 3] : List Nat),
  ([68, 16, 20, 65, 0, 68, 16, 6, 65, 0, 63, 240, 1, 255, 0, 0] : List Nat),
  ([0, 0, 28, 0, 67, 224, 4, 99, 0, 68, 16, 20, 65, 3, 68, 16] : List Nat),
  ([100, 65, 4, 100, 16, 3, 255, 0, 31, 240, 0, 0, 0, 1, 192, 4] : List Nat),
  ([62, 1, 70, 48, 52, 65, 6, 68, 16, 100, 65, 3, 68, 16, 22, 65] : List Nat),
  ([0, 63, 240, 1, 255, 0, 0, 0, 0, 28, 3, 67, 224, 116, 99, 4] : List Nat),
  ([68, 16, 100, 65, 3, 68, 16, 20, 65, 7, 100, 16, 99, 255, 0, 31] : List Nat),
  ([240, 0, 0, 0, 1, 192, 4, 62, 7, 70, 48, 116, 65, 0, 68, 16] : List Nat),
  ([4, 65, 7, 68, 16, 118, 65, 0, 63, 240, 1, 255, 0, 0, 0, 0] : List Nat),
  ([28, 0, 67, 224, 52, 99, 7, 196, 16, 76, 65, 4, 196, 16, 124, 65] : List Nat),
  ([3, 100, 16, 3, 255, 0, 31, 240, 0, 0, 0, 3, 224, 4, 127, 0] : List Nat),
  ([68, 16, 4, 65, 0, 100, 16, 3, 255, 0, 127, 224, 4, 35, 0, 66] : List Nat),
  ([16, 4, 33, 0, 126, 48, 3, 226, 0, 0, 0, 1, 252, 0, 63, 224] : List Nat),
  ([6, 3, 0, 64, 17, 4, 1, 240, 64, 30, 4, 1, 0, 96, 48, 3] : List Nat),
  ([6, 0, 16, 64, 0, 0, 0, 31, 192, 3, 254, 4, 98, 48, 100, 33] : List Nat),
  ([3, 66, 16, 20, 33, 0, 66, 16, 6, 33, 0, 62, 48, 1, 226, 0] : List Nat),
  ([0, 0, 1, 252, 0, 63, 224, 6, 35, 0, 66, 16, 20, 33, 3, 66] : List Nat),
  ([16, 100, 33, 4, 98, 16, 3, 227, 0, 30, 32, 0, 0, 0, 31, 192] : List Nat),
  ([3, 254, 1, 98, 48, 52, 33, 6, 66, 16, 100, 33, 3, 66, 16, 22] : List Nat),
  ([33, 0, 62, 48, 1, 226, 0, 0, 0, 1, 252, 0, 63, 224, 118, 35] : List Nat),
  ([7, 66, 16, 4, 33, 0, 66, 16, 116, 33, 7, 98, 16, 3, 227, 0] : List Nat),
  ([30, 32, 0, 0, 4, 64, 16, 100, 1, 3, 127, 240, 23, 255, 0, 0] : List Nat),
  ([16, 0, 1, 0, 0, 0, 4, 1, 0, 64, 16, 23, 255, 3, 127, 240] : List Nat),
  ([96, 1, 4, 0, 16, 0, 0, 1, 64, 16, 52, 1, 6, 127, 240, 103] : List Nat),
  ([255, 3, 0, 16, 16, 1, 0, 0, 0, 116, 1, 7, 64, 16, 7, 255] : List Nat),
  ([0, 127, 240, 112, 1, 7, 0, 16, 0, 0, 0, 31, 192, 83, 254, 7] : List Nat),
  ([96, 48, 36, 1, 7, 64, 16, 92, 1, 0, 192, 16, 6, 3, 0, 63] : List Nat),
  ([224, 1, 252, 0, 0, 0, 7, 255, 3, 127, 240, 116, 0, 4, 64, 0] : List Nat),
  ([100, 0, 3, 64, 0, 20, 0, 7, 96, 0, 99, 255, 0, 31, 240, 0] : List Nat),
  ([0, 0, 31, 192, 3, 254, 4, 96, 48, 100, 1, 3, 64, 16, 20, 1] : List Nat),
  ([0, 64, 16, 6, 3, 0, 63, 224, 1, 252, 0, 0, 0, 1, 252, 0] : List Nat),
  ([63, 224, 6, 3, 0, 64, 16, 20, 1, 3, 64, 16, 100, 1, 4, 96] : List Nat),
  ([48, 3, 254, 0, 31, 192, 0, 0, 0, 31, 192, 3, 254, 1, 96, 48] : List Nat),
  ([52, 1, 6, 64, 16, 100, 1, 3, 64, 16, 22, 3, 0, 63, 224, 1] : List Nat),
  ([252, 0, 0, 0, 1, 252, 3, 63, 224, 118, 3, 4, 64, 16, 100, 1] : List Nat),
  ([3, 64, 16, 20, 1, 7, 96, 48, 99, 254, 0, 31, 192, 0, 0, 0] : List Nat),
  ([31, 192, 3, 254, 7, 96, 48, 116, 1, 0, 64, 16, 4, 1, 7, 64] : List Nat),
  ([16, 118, 3, 0, 63, 224, 1, 252, 0, 0, 0, 0, 128, 0, 8, 0] : List Nat),
  ([0, 128, 0, 8, 0, 28, 156, 1, 201, 192, 0, 128, 0, 8, 0, 0] : List Nat),
  ([128, 0, 8, 0, 0, 0, 0, 31, 208, 3, 254, 0, 96, 240, 4, 25] : List Nat),
  ([0, 67, 16, 4, 97, 0, 76, 16, 7, 131, 0, 63, 224, 5, 252, 0] : List Nat),
  ([0, 0, 7, 252, 0, 127, 224, 64, 3, 6, 0, 16, 48, 1, 1, 0] : List Nat),
  ([16, 0, 1, 0, 0, 16, 7, 255, 0, 127, 240, 0, 0, 0, 127, 192] : List Nat),
  ([7, 254, 0, 0, 48, 0, 1, 1, 0, 16, 48, 1, 6, 0, 16, 64] : List Nat),
  ([1, 0, 127, 240, 7, 255, 0, 0, 0, 7, 252, 0, 127, 224, 16, 3] : List Nat),
  ([3, 0, 16, 96, 1, 6, 0, 16, 48, 1, 1, 0, 16, 7, 255, 0] : List Nat),
  ([127, 240, 0, 0, 0, 127, 192, 7, 254, 7, 0, 48, 112, 1, 0, 0] : List Nat),
  ([16, 0, 1, 7, 0, 16, 112, 1, 0, 127, 240, 7, 255, 0, 0, 0] : List Nat),
  ([7, 252, 0, 127, 225, 0, 3, 16, 0, 17, 16, 1, 19, 0, 17, 96] : List Nat),
  ([1, 20, 0, 51, 7, 255, 224, 127, 252, 0, 0, 7, 255, 255, 127, 255] : List Nat),
  ([240, 64, 16, 4, 1, 0, 64, 16, 4, 1, 0, 64, 16, 6, 3, 0] : List Nat),
  ([63, 224, 1, 252, 0, 0, 0, 7, 252, 0, 127, 225, 112, 3, 23, 0] : List Nat),
  ([17, 0, 1, 16, 0, 17, 112, 1, 23, 0, 51, 7, 255, 224, 127, 252] : List Nat),
  ([0, 0, 0] : List Nat)]

/-- The table `static const unsigned char fontBitmap[]`: the glyph pixels, one
bit per pixel, glyph after glyph. -/
def fontBitmap : List Nat := fontBitmapLines.flatten

/-- The table `static const unsigned char fontWidths[]`: the width in pixels of
every glyph, starting with the glyph of character code 32. -/
def fontWidths : List Nat := [
  6, 3, 7, 11, 11, 11, 11, 3, 6, 6, 12, 11, 4, 11, 3, 9,
  11, 9, 11, 11, 11, 11, 11, 11, 11, 11, 3, 4, 10, 11, 10, 11,
  12, 11, 11, 11, 11, 11, 11, 11, 11, 7, 12, 11, 11, 12, 11, 11,
  11, 11, 11, 11, 11, 11, 11, 12, 11, 11, 11, 6, 9, 6, 11, 11,
  5, 11, 11, 11, 11, 11, 10, 11, 11, 7, 9, 10, 7, 11, 11, 11,
  11, 11, 11, 11, 10, 11, 11, 11, 11, 11, 11, 8, 3, 8, 11, 0,
  0, 0, 0, 0, 0, 0, 0, 0, 0, 0, 0, 0, 0, 0, 0, 0,
  0, 0, 0, 0, 0, 0, 0, 0, 0, 0, 0, 0, 0, 0, 0, 0,
  0, 3, 11, 11, 12, 11, 3, 8, 7, 12, 10, 12, 11, 9, 12, 9,
  8, 11, 7, 7, 5, 11, 11, 3, 4, 6, 10, 12, 11, 11, 11, 11,
  11, 11, 11, 11, 11, 11, 13, 11, 11, 11, 11, 11, 7, 7, 7, 7,
  12, 11, 11, 11, 11, 11, 11, 11, 13, 11, 11, 11, 11, 11, 11, 11,
  11, 11, 11, 11, 11, 11, 13, 11, 11, 11, 11, 11, 7, 7, 7, 7,
  11, 11, 11, 11, 11, 11, 11, 11, 11, 11, 11, 11, 11, 11, 11, 11]

/-- The arguments of one call of
`jswrap_graphics_setFontCustom(parent, bitmap, firstChar, width, height)`; the
two native strings are given by the bytes they are made from. -/
structure SetFontCustomArgs where
  parent : Nat
  bitmap : List Nat
  firstChar : Int
  width : List Nat
  height : Int
deriving DecidableEq

/-- A value as a 32-bit two's complement `int`. -/
def toInt32 (x : Int) : Int := (x + 2 ^ 31) % 2 ^ 32 - 2 ^ 31

/-- Embedding of `JsVar *jswrap_graphics_setFont12x20(JsVar *parent, int scale)`
as the list of calls of `jswrap_graphics_setFontCustom` it makes:
`if (scale<1) scale=1;`, the two native strings over `fontBitmap` and
`fontWidths` (with their `sizeof`), and
`jswrap_graphics_setFontCustom(parent, bitmap, 32, widths, 20 + (scale<<8))`.
The shift and the sum are taken in 32-bit `int`. -/
def jswrap_graphics_setFont12x20 (parent : Nat) (scale : Int) : List SetFontCustomArgs :=
  let scale := if scale < 1 then 1 else scale
  [{ parent := parent, bitmap := fontBitmap, firstChar := 32, width := fontWidths,
     height := toInt32 (20 + toInt32 (scale * 2 ^ 8)) }]

/-! ## Index arithmetic -/

theorem and_BUFFERMASK (i : Nat) : i &&& BUFFERMASK = i % 8192 := by
  have h := Nat.and_pow_two_sub_one_eq_mod i 13
  simpa [BUFFERMASK] using h

theorem push_rxHead (s : BootState) (ch c : Nat) :
    (jshPushIOCharEvent s ch c).rxHead = (s.rxHead + 1) % 8192 := by
  simp [jshPushIOCharEvent, and_BUFFERMASK]

theorem push_rxTail (s : BootState) (ch c : Nat) :
    (jshPushIOCharEvent s ch c).rxTail = s.rxTail := rfl

theorem push_inRange (s : BootState) (ch c : Nat) (h : RxInRange s) :
    RxInRange (jshPushIOCharEvent s ch c) := by
  refine ⟨?_, h.2⟩
  rw [push_rxHead]
  exact Nat.mod_lt _ (by decide)

theorem getc_empty (s : BootState) (h : s.rxHead = s.rxTail) : _getc s = (-1, s) := by
  simp [_getc, h]

theorem getc_nonempty (s : BootState) (h : s.rxHead ≠ s.rxTail) :
    _getc s = ((asUnsignedChar (s.rxBuffer s.rxTail) : Int),
      { s with rxTail := (s.rxTail + 1) % 8192 }) := by
  simp [_getc, h, and_BUFFERMASK]

theorem getc_inRange (s : BootState) (h : RxInRange s) : RxInRange (_getc s).2 := by
  by_cases he : s.rxHead = s.rxTail
  · rw [getc_empty s he]; exact h
  · rw [getc_nonempty s he]
    exact ⟨h.1, Nat.mod_lt _ (by decide)⟩

/-! ## The buffered bytes -/

theorem length_rxContent (s : BootState) :
    (rxContent s).length = (s.rxHead + 8192 - s.rxTail) % 8192 := by
  simp [rxContent]

theorem rxContent_push (s : BootState) (ch c : Nat) (h : RxInRange s)
    (hfull : (s.rxHead + 1) % 8192 ≠ s.rxTail) :
    rxContent (jshPushIOCharEvent s ch c) = rxContent s ++ [toCharBits c] := by
  obtain ⟨hh, ht⟩ := h
  have hn : ((s.rxHead + 1) % 8192 + 8192 - s.rxTail) % 8192
      = (s.rxHead + 8192 - s.rxTail) % 8192 + 1 := by omega
  unfold rxContent
  rw [push_rxHead, push_rxTail, hn, List.range_succ, List.map_append]
  congr 1
  · apply List.map_congr_left
    intro j hj
    have hj2 : j < (s.rxHead + 8192 - s.rxTail) % 8192 := List.mem_range.mp hj
    have hne : (s.rxTail + j) % 8192 ≠ s.rxHead := by omega
    simp [jshPushIOCharEvent, hne]
  · have he : (s.rxTail + (s.rxHead + 8192 - s.rxTail) % 8192) % 8192 = s.rxHead := by omega
    simp [jshPushIOCharEvent, he, asUnsignedChar, toCharBits]

theorem rxContent_getc (s : BootState) (h : RxInRange s) (hne : s.rxHead ≠ s.rxTail) :
    rxContent s = asUnsignedChar (s.rxBuffer s.rxTail) :: rxContent (_getc s).2 := by
  obtain ⟨hh, ht⟩ := h
  rw [getc_nonempty s hne]
  have hn : (s.rxHead + 8192 - s.rxTail) % 8192
      = (s.rxHead + 8192 - (s.rxTail + 1) % 8192) % 8192 + 1 := by omega
  unfold rxContent
  simp only []
  rw [hn, List.range_succ_eq_map, List.map_cons, List.map_map]
  congr 1
  · simp [Nat.mod_eq_of_lt ht]
  · apply List.map_congr_left
    intro j _
    have he : (s.rxTail + (j + 1)) % 8192 = ((s.rxTail + 1) % 8192 + j) % 8192 := by omega
    simp [he]

theorem rxContent_eq_nil_iff (s : BootState) (h : RxInRange s) :
    rxContent s = [] ↔ s.rxHead = s.rxTail := by
  obtain ⟨hh, ht⟩ := h
  rw [← List.length_eq_zero, length_rxContent]
  omega

/-- Pushing a list that fits (at most 8191 bytes buffered in the end) appends
it to the buffered bytes. -/
theorem pushAll_content (ch : Nat) (l : List Nat) :
    ∀ s : BootState, RxInRange s → (rxContent s).length + l.length ≤ 8191 →
      rxContent (pushAll s ch l) = rxContent s ++ l.map toCharBits
        ∧ RxInRange (pushAll s ch l)
        ∧ (pushAll s ch l).rxTail = s.rxTail := by
  induction l with
  | nil => intro s h _; simp [pushAll, h]
  | cons c cs ih =>
    intro s h hlen
    have hlen2 : (s.rxHead + 8192 - s.rxTail) % 8192 + (cs.length + 1) ≤ 8191 := by
      simpa [length_rxContent] using hlen
    have hfull : (s.rxHead + 1) % 8192 ≠ s.rxTail := by
      obtain ⟨hh, ht⟩ := h
      omega
    have hc := rxContent_push s ch c h hfull
    have hr := push_inRange s ch c h
    have hlen3 : (rxContent (jshPushIOCharEvent s ch c)).length + cs.length ≤ 8191 := by
      rw [hc, List.length_append, length_rxContent]
      simp only [List.length_singleton]
      omega
    obtain ⟨h1, h2, h3⟩ := ih (jshPushIOCharEvent s ch c) hr hlen3
    refine ⟨?_, h2, ?_⟩
    · simp only [pushAll]
      rw [h1, hc]
      simp
    · simp only [pushAll]
      rw [h3, push_rxTail]

/-- Popping no more bytes than are buffered returns them oldest first and
leaves the rest. -/
theorem getcN_content (m : Nat) :
    ∀ s : BootState, RxInRange s → m ≤ (rxContent s).length →
      (getcN m s).1 = ((rxContent s).take m).map (fun b : Nat => (b : Int))
        ∧ rxContent (getcN m s).2 = (rxContent s).drop m
        ∧ RxInRange (getcN m s).2
        ∧ (getcN m s).2.rxHead = s.rxHead := by
  induction m with
  | zero => intro s h _; simp [getcN, h]
  | succ m ih =>
    intro s h hlen
    have hne : s.rxHead ≠ s.rxTail := by
      intro he
      have := (rxContent_eq_nil_iff s h).mpr he
      rw [this] at hlen
      simp at hlen
    have hc := rxContent_getc s h hne
    have hr := getc_inRange s h
    have hlen2 : m ≤ (rxContent (_getc s).2).length := by
      rw [hc] at hlen
      simpa using hlen
    obtain ⟨h1, h2, h3, h4⟩ := ih (_getc s).2 hr hlen2
    have hv : (_getc s).1 = (asUnsignedChar (s.rxBuffer s.rxTail) : Int) := by
      rw [getc_nonempty s hne]
    have hh : (_getc s).2.rxHead = s.rxHead := by
      rw [getc_nonempty s hne]
    refine ⟨?_, ?_, h3, ?_⟩
    · simp only [getcN]
      rw [h1, hv]
      conv_rhs => rw [hc]
      simp
    · simp only [getcN]
      rw [h2]
      conv_rhs => rw [hc]
      simp
    · simp only [getcN]
      rw [h4, hh]

/-- After any number of pushes the write index has advanced by that number
modulo 8192 and the read index has not moved. -/
theorem pushAll_indices (ch : Nat) (l : List Nat) :
    ∀ s : BootState, s.rxHead < 8192 →
      (pushAll s ch l).rxHead = (s.rxHead + l.length) % 8192
        ∧ (pushAll s ch l).rxTail = s.rxTail := by
  induction l with
  | nil => intro s h; simp [pushAll, Nat.mod_eq_of_lt h]
  | cons c cs ih =>
    intro s h
    have hh : (jshPushIOCharEvent s ch c).rxHead < 8192 := by
      rw [push_rxHead]; exact Nat.mod_lt _ (by decide)
    obtain ⟨h1, h2⟩ := ih (jshPushIOCharEvent s ch c) hh
    simp only [pushAll]
    rw [h1, h2, push_rxHead, push_rxTail]
    refine ⟨?_, rfl⟩
    simp only [List.length_cons]
    omega

theorem pushAll_append (ch : Nat) (l1 l2 : List Nat) :
    ∀ s : BootState, pushAll s ch (l1 ++ l2) = pushAll (pushAll s ch l1) ch l2 := by
  induction l1 with
  | nil => intro s; rfl
  | cons c cs ih => intro s; simp only [List.cons_append, pushAll]; exact ih _

theorem getcN_add (m n : Nat) :
    ∀ s : BootState, (getcN (m + n) s).1 = (getcN m s).1 ++ (getcN n (getcN m s).2).1
      ∧ (getcN (m + n) s).2 = (getcN n (getcN m s).2).2 := by
  induction m with
  | zero => intro s; simp [getcN]
  | succ m ih =>
    intro s
    have h := ih (_getc s).2
    rw [show m + 1 + n = (m + n) + 1 by omega]
    simp only [getcN]
    exact ⟨by rw [h.1]; simp, h.2⟩

theorem map_toCharBits_of_lt (l : List Nat) (h : ∀ b ∈ l, b < 256) :
    l.map toCharBits = l := by
  induction l with
  | nil => rfl
  | cons c cs ih =>
    have hc : c < 256 := h c (List.mem_cons_self _ _)
    have hcs : ∀ b ∈ cs, b < 256 := fun b hb => h b (List.mem_cons_of_mem _ hb)
    simp [toCharBits, Nat.mod_eq_of_lt hc, ih hcs]

theorem rxContent_of_empty (s : BootState) (h : s.rxHead = s.rxTail) : rxContent s = [] := by
  simp [rxContent, h]

/-- From an empty buffer, pushing at most 8191 bytes and popping `m` of them
gives the first `m` bytes pushed. -/
theorem fifo_from_empty (s : BootState) (ch : Nat) (l : List Nat) (m : Nat)
    (hr : RxInRange s) (hempty : s.rxHead = s.rxTail)
    (hlen : l.length ≤ 8191) (hm : m ≤ l.length) :
    (getcN m (pushAll s ch l)).1 = ((l.map toCharBits).take m).map (fun b : Nat => (b : Int))
      ∧ rxContent (getcN m (pushAll s ch l)).2 = (l.map toCharBits).drop m
      ∧ RxInRange (getcN m (pushAll s ch l)).2 := by
  have h0 := rxContent_of_empty s hempty
  obtain ⟨h1, h2, _⟩ := pushAll_content ch l s hr (by rw [h0]; simpa using hlen)
  rw [h0, List.nil_append] at h1
  obtain ⟨g1, g2, g3, _⟩ := getcN_content m (pushAll s ch l) h2 (by rw [h1]; simpa using hm)
  rw [h1] at g1 g2
  exact ⟨g1, g2, g3⟩

/-- From an empty buffer, after pushing any list the consumer gets the last
`length % 8192` bytes of it and then the empty marker. -/
theorem drain_after_pushAll (s : BootState) (ch : Nat) (l : List Nat)
    (hr : RxInRange s) (hempty : s.rxHead = s.rxTail) :
    (getcN (l.length % 8192 + 1) (pushAll s ch l)).1
      = ((l.drop (l.length - l.length % 8192)).map toCharBits).map (fun b : Nat => (b : Int))
        ++ [-1] := by
  have hq : (l.length - l.length % 8192) % 8192 = 0 := by omega
  have hsplit : l = l.take (l.length - l.length % 8192) ++ l.drop (l.length - l.length % 8192) :=
    (List.take_append_drop _ _).symm
  have hl1 : (l.take (l.length - l.length % 8192)).length = l.length - l.length % 8192 := by
    rw [List.length_take]; omega
  have hl2 : (l.drop (l.length - l.length % 8192)).length = l.length % 8192 := by
    rw [List.length_drop]; omega
  obtain ⟨i1, i2⟩ := pushAll_indices ch (l.take (l.length - l.length % 8192)) s hr.1
  rw [hl1] at i1
  have hr1 : RxInRange (pushAll s ch (l.take (l.length - l.length % 8192))) := by
    refine ⟨?_, ?_⟩
    · rw [i1]; exact Nat.mod_lt _ (by decide)
    · rw [i2]; exact hr.2
  have he1 : (pushAll s ch (l.take (l.length - l.length % 8192))).rxHead
      = (pushAll s ch (l.take (l.length - l.length % 8192))).rxTail := by
    rw [i1, i2, ← hempty]
    have := hr.1
    omega
  have hlt : l.length % 8192 ≤ 8191 := by omega
  obtain ⟨f1, f2, f3⟩ := fifo_from_empty _ ch (l.drop (l.length - l.length % 8192))
    (l.length % 8192) hr1 he1 (by rw [hl2]; exact hlt) (by rw [hl2])
  rw [← pushAll_append, ← hsplit] at f1 f2 f3
  obtain ⟨a1, _⟩ := getcN_add (l.length % 8192) 1 (pushAll s ch l)
  rw [a1, f1]
  have hnil : rxContent (getcN (l.length % 8192) (pushAll s ch l)).2 = [] := by
    rw [f2]
    apply List.drop_eq_nil_of_le
    rw [List.length_map, hl2]
  have hemp := (rxContent_eq_nil_iff _ f3).mp hnil
  have htake : ((l.drop (l.length - l.length % 8192)).map toCharBits).take (l.length % 8192)
      = (l.drop (l.length - l.length % 8192)).map toCharBits := by
    apply List.take_of_length_le
    rw [List.length_map, hl2]
  rw [htake]
  simp [getcN, getc_empty _ hemp]

theorem rxDrainCount_eq_length (fuel : Nat) :
    ∀ s : BootState, RxInRange s → (rxContent s).length ≤ fuel →
      rxDrainCount fuel s = (rxContent s).length := by
  induction fuel with
  | zero =>
    intro s _ h
    simp only [rxDrainCount]
    omega
  | succ fuel ih =>
    intro s hr h
    by_cases he : s.rxHead = s.rxTail
    · simp [rxDrainCount, getc_empty s he, rxContent_of_empty s he]
    · have hc := rxContent_getc s hr he
      have hlen : (rxContent (_getc s).2).length ≤ fuel := by
        rw [hc] at h
        simpa using h
      have hi := ih (_getc s).2 (getc_inRange s hr) hlen
      have hv : ¬ (_getc s).1 < 0 := by
        rw [getc_nonempty s he]
        simp
      simp only [rxDrainCount, hv, if_false]
      rw [hi]
      conv_rhs => rw [hc]
      simp

/-! ## FIFO order (C1) -/

/-- C1, as amended: starting from an empty RX buffer (`rxHead = rxTail`, both
valid indices), for every byte sequence of length at most 8191 (one less than
the array size), pushing it with `jshPushIOCharEvent` and then calling `_getc`
`m` times (`m` at most the length) returns exactly the first `m` bytes pushed,
in order, each a value in `0..255` and never the empty marker `-1`. -/
theorem C1_fifo_up_to_8191 (s : BootState) (ch : Nat) (l : List Nat) (m : Nat)
    (hr : RxInRange s) (hempty : s.rxHead = s.rxTail)
    (hbytes : ∀ b ∈ l, b < 256) (hlen : l.length ≤ 8191) (hm : m ≤ l.length) :
    (getcN m (pushAll s ch l)).1 = (l.take m).map (fun b : Nat => (b : Int))
      ∧ ∀ x ∈ (getcN m (pushAll s ch l)).1, 0 ≤ x ∧ x ≤ 255 ∧ x ≠ -1 := by
  obtain ⟨h1, _, _⟩ := fifo_from_empty s ch l m hr hempty hlen hm
  rw [map_toCharBits_of_lt l hbytes] at h1
  refine ⟨h1, ?_⟩
  intro x hx
  rw [h1] at hx
  obtain ⟨b, hb, rfl⟩ := List.mem_map.mp hx
  have hb2 : b < 256 := hbytes b (List.mem_of_mem_take hb)
  omega

/-- C1, witness: pushing `[0x41, 0x42, 0x43]` into the start-up state and
popping three times yields `[0x41, 0x42, 0x43]`. -/
theorem C1_fifo_witness :
    (getcN 3 (pushAll initState 0 [0x41, 0x42, 0x43])).1 = [0x41, 0x42, 0x43]
      ∧ ∀ x ∈ (getcN 3 (pushAll initState 0 [0x41, 0x42, 0x43])).1,
          0 ≤ x ∧ x ≤ 255 ∧ x ≠ -1 :=
  C1_fifo_up_to_8191 initState 0 [0x41, 0x42, 0x43] 3
    (by decide) (by decide) (by decide) (by decide) (by decide)

/-- C1, counterexample at the boundary `length = 8192`: after 8192 pushes into
the start-up state the write index is back on the read index, so the first
`_getc` already returns `-1` instead of the first byte pushed. -/
theorem C1_counterexample_at_capacity :
    (List.replicate 8192 0x41).length = 8192
      ∧ initState.rxHead = initState.rxTail
      ∧ (getcN 1 (pushAll initState 0 (List.replicate 8192 0x41))).1 = [-1] := by
  have hlen : (List.replicate 8192 0x41).length = 8192 := List.length_replicate _ _
  refine ⟨hlen, rfl, ?_⟩
  have h := drain_after_pushAll initState 0 (List.replicate 8192 0x41)
    (by decide) (by decide)
  have hd : (List.replicate 8192 0x41).drop 8192 = [] :=
    List.drop_eq_nil_of_le (by rw [hlen])
  have e1 : 8192 % 8192 + 1 = 1 := by decide
  have e2 : 8192 - 8192 % 8192 = 8192 := by decide
  rw [hlen, e1, e2, hd] at h
  exact h

/-! ## Overflow (C3, C7) -/

/-- C3, as amended: for every `k ≥ 1` and every sequence of `8192 + k` bytes
pushed with `jshPushIOCharEvent` into an empty RX buffer with no intervening
pops, exactly `k % 8192` bytes are then returned by repeated `_getc` before it
returns `-1`, and they are the most recent `k % 8192` bytes pushed, in push
order. -/
theorem C3_overflow_keeps_k_mod_capacity (s : BootState) (ch : Nat) (l : List Nat) (k : Nat)
    (hr : RxInRange s) (hempty : s.rxHead = s.rxTail)
    (hbytes : ∀ b ∈ l, b < 256) (hk : 1 ≤ k) (hlen : l.length = 8192 + k) :
    (getcN (k % 8192 + 1) (pushAll s ch l)).1
      = (l.drop (l.length - k % 8192)).map (fun b : Nat => (b : Int)) ++ [-1] := by
  have h := drain_after_pushAll s ch l hr hempty
  have hmod : l.length % 8192 = k % 8192 := by omega
  rw [hmod] at h
  rw [h, map_toCharBits_of_lt]
  intro b hb
  exact hbytes b (List.mem_of_mem_drop hb)

/-- C3, witness: 8193 bytes (`k = 1`) pushed into the start-up state leave one
byte to read, the last one pushed. -/
theorem C3_overflow_witness :
    (getcN (1 % 8192 + 1) (pushAll initState 0 (List.replicate 8192 0x41 ++ [0x42]))).1
      = ((List.replicate 8192 0x41 ++ [0x42]).drop
          ((List.replicate 8192 0x41 ++ [0x42]).length - 1 % 8192)).map
          (fun b : Nat => (b : Int)) ++ [-1] :=
  C3_overflow_keeps_k_mod_capacity initState 0 (List.replicate 8192 0x41 ++ [0x42]) 1
    (by decide) (by decide)
    (by
      intro b hb
      rcases List.mem_append.mp hb with h | h
      · rw [List.eq_of_mem_replicate h]; decide
      · rw [List.mem_singleton.mp h]; decide)
    (by decide) (by rw [List.length_append, List.length_replicate]; rfl)

/-- C3, counterexample with `k = 1`: after 8193 pushes into the start-up state
the second `_getc` already returns `-1`, so one byte is retrievable and not
8192; the first `_getc` returns the newest byte `0x42`, not the oldest of the
last 8192 bytes (`0x41`). -/
theorem C3_counterexample_k_one :
    (List.replicate 8192 0x41 ++ [0x42]).length = 8192 + 1
      ∧ initState.rxHead = initState.rxTail
      ∧ (getcN 2 (pushAll initState 0 (List.replicate 8192 0x41 ++ [0x42]))).1 = [0x42, -1] := by
  have hlen : (List.replicate 8192 0x41 ++ [0x42]).length = 8193 := by
    rw [List.length_append, List.length_replicate]; rfl
  refine ⟨hlen, rfl, ?_⟩
  have h := drain_after_pushAll initState 0 (List.replicate 8192 0x41 ++ [0x42])
    (by decide) (by decide)
  have hd : (List.replicate 8192 0x41 ++ [0x42]).drop 8192 = [0x42] := by
    have h2 := List.drop_left (List.replicate 8192 0x41) [0x42]
    rwa [List.length_replicate] at h2
  have e1 : 8193 % 8192 + 1 = 2 := by decide
  have e2 : 8193 - 8193 % 8192 = 8192 := by decide
  rw [hlen, e1, e2, hd] at h
  exact h

/-- C7, as amended: for every RX buffer state that is full (valid indices, and
advancing `rxHead` by one modulo 8192 gives `rxTail`), which holds 8191 bytes,
one further `jshPushIOCharEvent(c)` puts the write index on the read index:
the buffer then reads as empty, `_getc` returns `-1` at once and leaves the
state as it is, so none of the buffered bytes and not `c` is returned. -/
theorem C7_push_on_full_reads_empty (s : BootState) (ch c : Nat)
    (hr : RxInRange s) (hfull : (s.rxHead + 1) % 8192 = s.rxTail) :
    (rxContent s).length = 8191
      ∧ (jshPushIOCharEvent s ch c).rxHead = (jshPushIOCharEvent s ch c).rxTail
      ∧ _getc (jshPushIOCharEvent s ch c) = (-1, jshPushIOCharEvent s ch c)
      ∧ ∀ n, (getcN n (jshPushIOCharEvent s ch c)).1 = List.replicate n (-1) := by
  have he : (jshPushIOCharEvent s ch c).rxHead = (jshPushIOCharEvent s ch c).rxTail := by
    rw [push_rxHead, push_rxTail, hfull]
  have hg := getc_empty _ he
  refine ⟨?_, he, hg, ?_⟩
  · obtain ⟨hh, ht⟩ := hr
    rw [length_rxContent]
    omega
  · intro n
    induction n with
    | zero => rfl
    | succ n ih =>
      simp only [getcN, hg, List.replicate_succ]
      rw [ih]

/-- C7, witness: the start-up state after 8191 pushes is full; one more push
makes `_getc` return `-1`. -/
theorem C7_push_on_full_witness :
    (rxContent (pushAll initState 0 (List.replicate 8191 0x41))).length = 8191
      ∧ (jshPushIOCharEvent (pushAll initState 0 (List.replicate 8191 0x41)) 0 0x42).rxHead
          = (jshPushIOCharEvent (pushAll initState 0 (List.replicate 8191 0x41)) 0 0x42).rxTail
      ∧ _getc (jshPushIOCharEvent (pushAll initState 0 (List.replicate 8191 0x41)) 0 0x42)
          = (-1, jshPushIOCharEvent (pushAll initState 0 (List.replicate 8191 0x41)) 0 0x42)
      ∧ ∀ n, (getcN n (jshPushIOCharEvent
          (pushAll initState 0 (List.replicate 8191 0x41)) 0 0x42)).1 = List.replicate n (-1) :=
  have hi := pushAll_indices 0 (List.replicate 8191 0x41) initState (by decide)
  have hh : (pushAll initState 0 (List.replicate 8191 0x41)).rxHead = 8191 := by
    rw [hi.1, List.length_replicate]; rfl
  have ht : (pushAll initState 0 (List.replicate 8191 0x41)).rxTail = 0 := by
    rw [hi.2]; rfl
  C7_push_on_full_reads_empty (pushAll initState 0 (List.replicate 8191 0x41)) 0 0x42
    ⟨by rw [hh]; decide, by rw [ht]; decide⟩ (by rw [hh, ht])

/-- C7, counterexample: the start-up state after 8191 pushes of `0x41` is full
and `_getc` on it would return `0x41`; after one further push of `0x42` the
first `_getc` returns `-1`, not the second-oldest byte `0x41`. -/
theorem C7_counterexample_full_then_push :
    ((pushAll initState 0 (List.replicate 8191 0x41)).rxHead + 1) % 8192
        = (pushAll initState 0 (List.replicate 8191 0x41)).rxTail
      ∧ (getcN 1 (pushAll initState 0 (List.replicate 8191 0x41))).1 = [0x41]
      ∧ (getcN 1 (jshPushIOCharEvent
          (pushAll initState 0 (List.replicate 8191 0x41)) 0 0x42)).1 = [-1] := by
  have hi := pushAll_indices 0 (List.replicate 8191 0x41) initState (by decide)
  have hh : (pushAll initState 0 (List.replicate 8191 0x41)).rxHead = 8191 := by
    rw [hi.1, List.length_replicate]; rfl
  have ht : (pushAll initState 0 (List.replicate 8191 0x41)).rxTail = 0 := by
    rw [hi.2]; rfl
  have hlen : (List.replicate 8191 0x41).length = 8191 := List.length_replicate _ _
  refine ⟨by rw [hh, ht], ?_, ?_⟩
  · obtain ⟨f1, _, _⟩ := fifo_from_empty initState 0 (List.replicate 8191 0x41) 1
      (by decide) (by decide) (by rw [hlen]) (by rw [hlen]; decide)
    rw [f1]
    rfl
  · have he : (jshPushIOCharEvent (pushAll initState 0 (List.replicate 8191 0x41)) 0 0x42).rxHead
        = (jshPushIOCharEvent (pushAll initState 0 (List.replicate 8191 0x41)) 0 0x42).rxTail := by
      rw [push_rxHead, push_rxTail, hh, ht]
    simp only [getcN, getc_empty _ he]

/-! ## Occupancy (C8) -/

/-- C8: for every state with both RX indices in `0..8191`, the number of
consecutive `_getc` calls that return a byte before one returns `-1` equals
`(rxHead - rxTail) mod 8192` (any fuel of at least 8192 polls finds it, that
many pops all succeed and the next one returns `-1`); it is 0 exactly when the
indices are equal, a push from a non-full state raises it by one and a
successful pop lowers it by one. -/
theorem C8_occupancy (s : BootState) (fuel : Nat) (hr : RxInRange s) (hfuel : 8192 ≤ fuel) :
    (rxDrainCount fuel s : Int) = ((s.rxHead : Int) - (s.rxTail : Int)) % 8192
      ∧ (∀ x ∈ (getcN (rxDrainCount fuel s) s).1, 0 ≤ x)
      ∧ (_getc (getcN (rxDrainCount fuel s) s).2).1 = -1
      ∧ (rxDrainCount fuel s = 0 ↔ s.rxHead = s.rxTail)
      ∧ (∀ ch c, (s.rxHead + 1) % 8192 ≠ s.rxTail →
          rxDrainCount fuel (jshPushIOCharEvent s ch c) = rxDrainCount fuel s + 1)
      ∧ (s.rxHead ≠ s.rxTail → rxDrainCount fuel (_getc s).2 + 1 = rxDrainCount fuel s) := by
  have hbound : ∀ t : BootState, (rxContent t).length ≤ fuel := by
    intro t
    rw [length_rxContent]
    omega
  have hcount : ∀ t : BootState, RxInRange t → rxDrainCount fuel t = (rxContent t).length :=
    fun t ht => rxDrainCount_eq_length fuel t ht (hbound t)
  have h0 := hcount s hr
  obtain ⟨g1, g2, g3, _⟩ := getcN_content (rxContent s).length s hr (le_refl _)
  refine ⟨?_, ?_, ?_, ?_, ?_, ?_⟩
  · rw [h0, length_rxContent]
    obtain ⟨hh, ht⟩ := hr
    omega
  · intro x hx
    rw [h0, g1] at hx
    obtain ⟨b, _, rfl⟩ := List.mem_map.mp hx
    exact Int.ofNat_nonneg b
  · rw [h0]
    have hnil : rxContent (getcN (rxContent s).length s).2 = [] := by
      rw [g2]; exact List.drop_length _
    rw [getc_empty _ ((rxContent_eq_nil_iff _ g3).mp hnil)]
  · rw [h0, List.length_eq_zero]
    exact rxContent_eq_nil_iff s hr
  · intro ch c hfull
    rw [hcount _ (push_inRange s ch c hr), h0, rxContent_push s ch c hr hfull]
    simp
  · intro hne
    rw [hcount _ (getc_inRange s hr), h0]
    conv_rhs => rw [rxContent_getc s hr hne]
    simp

/-- C8, witness: three bytes pushed into the start-up state give occupancy 3. -/
theorem C8_occupancy_witness :
    (rxDrainCount 8192 (pushAll initState 0 [1, 2, 3]) : Int)
        = (((pushAll initState 0 [1, 2, 3]).rxHead : Int)
            - ((pushAll initState 0 [1, 2, 3]).rxTail : Int)) % 8192
      ∧ (pushAll initState 0 [1, 2, 3]).rxHead = 3 :=
  ⟨(C8_occupancy (pushAll initState 0 [1, 2, 3]) 8192 (by decide) (by decide)).1, by decide⟩

/-! ## Empty pop (C4) -/

/-- C4: for every state whose read index equals its write index, `_getc` (RX)
and `jshGetCharToTransmit` (TX) return `-1` and leave the whole state (both
indices and the buffer arrays) unchanged, so every following sequence of
buffer calls gives the same results and the same final state as on the state
before the empty pop. -/
theorem C4_empty_pop (plainCharSigned : Bool) (s : BootState) (device : Nat) :
    (s.rxHead = s.rxTail →
        _getc s = (-1, s)
          ∧ ∀ calls, runCalls plainCharSigned calls (_getc s).2
              = runCalls plainCharSigned calls s)
      ∧ (s.txHead = s.txTail →
        jshGetCharToTransmit plainCharSigned s device = (-1, s)
          ∧ ∀ calls,
              runCalls plainCharSigned calls (jshGetCharToTransmit plainCharSigned s device).2
                = runCalls plainCharSigned calls s) := by
  constructor
  · intro h
    have hg := getc_empty s h
    exact ⟨hg, fun calls => by rw [hg]⟩
  · intro h
    have hg : jshGetCharToTransmit plainCharSigned s device = (-1, s) := by
      simp [jshGetCharToTransmit, h]
    exact ⟨hg, fun calls => by rw [hg]⟩

/-- C4, witness: on the start-up state both pops return `-1` and change
nothing. -/
theorem C4_empty_pop_witness :
    _getc initState = (-1, initState)
      ∧ jshGetCharToTransmit false initState 0 = (-1, initState) :=
  ⟨((C4_empty_pop false initState 0).1 rfl).1, ((C4_empty_pop false initState 0).2 rfl).1⟩

/-! ## Blocking receive (C10) -/

theorem getc_blocking_of_empty (fuel : Nat) :
    ∀ s : BootState, s.rxHead = s.rxTail → _getc_blocking fuel s = none := by
  induction fuel with
  | zero => intro s _; rfl
  | succ fuel ih =>
    intro s h
    simp only [_getc_blocking, getc_empty s h]
    simpa using ih s h

/-- C10: on every non-empty RX state (`rxHead ≠ rxTail`) `_getc_blocking`
returns after a single poll (and the same with any larger allowance), its
result is the byte `_getc` returns on that state, the `(unsigned char)` reading
of `rxBuffer[rxTail]`, a value in `0..255`, and the state it leaves is the one
of that `_getc` call: `rxTail` advanced by one modulo 8192 and nothing else
changed.  On an empty RX state a poll leaves the state unchanged and the loop
has not returned after any number of polls. -/
theorem C10_blocking_receive (s : BootState) :
    (s.rxHead ≠ s.rxTail →
        _getc_blocking 1 s = some (((_getc s).1).toNat, (_getc s).2)
          ∧ (∀ fuel, _getc_blocking (fuel + 1) s = _getc_blocking 1 s)
          ∧ (_getc s).1 = (asUnsignedChar (s.rxBuffer s.rxTail) : Int)
          ∧ 0 ≤ (_getc s).1 ∧ (_getc s).1 ≤ 255
          ∧ (_getc s).2 = { s with rxTail := (s.rxTail + 1) % 8192 })
      ∧ (s.rxHead = s.rxTail →
        (_getc s).2 = s ∧ ∀ fuel, _getc_blocking fuel s = none) := by
  constructor
  · intro hne
    have hg := getc_nonempty s hne
    have hlt : asUnsignedChar (s.rxBuffer s.rxTail) < 256 := Nat.mod_lt _ (by decide)
    have hval : (_getc s).1 = (asUnsignedChar (s.rxBuffer s.rxTail) : Int) := by rw [hg]
    have hnn : ¬ (_getc s).1 < 0 := by rw [hval]; omega
    have hmod : (_getc s).1 % 256 = (_getc s).1 := by rw [hval]; omega
    refine ⟨?_, ?_, hval, by rw [hval]; omega, by rw [hval]; omega, by rw [hg]⟩
    · simp only [_getc_blocking, hnn, if_false, hmod]
    · intro fuel
      simp only [_getc_blocking, hnn, if_false]
  · intro he
    exact ⟨by rw [getc_empty s he], fun fuel => getc_blocking_of_empty fuel s he⟩

/-- C10, witness: with one byte `0x41` buffered the blocking receive returns
`0x41` after one poll; on the start-up state it is still spinning after 100
polls. -/
theorem C10_blocking_receive_witness :
    _getc_blocking 1 (jshPushIOCharEvent initState 0 0x41)
        = some (((_getc (jshPushIOCharEvent initState 0 0x41)).1).toNat,
            (_getc (jshPushIOCharEvent initState 0 0x41)).2)
      ∧ ((_getc (jshPushIOCharEvent initState 0 0x41)).1).toNat = 0x41
      ∧ _getc_blocking 100 initState = none :=
  ⟨((C10_blocking_receive (jshPushIOCharEvent initState 0 0x41)).1 (by decide)).1,
    by decide,
    ((C10_blocking_receive initState).2 rfl).2 100⟩

/-! ## TX round trip (C9) -/

/-- With plain `char` unsigned: for every byte `b` in `0..255` and every state
whose TX buffer is empty, `_putc(b)` followed by `jshGetCharToTransmit` returns
`b` itself, which is not the empty marker, and leaves the TX buffer empty
again; and on every state `jshGetCharToTransmit` returns `-1` only when
`txHead = txTail`. -/
theorem tx_round_trip_char_unsigned (s : BootState) (b device : Nat)
    (hb : b < 256) (hempty : s.txHead = s.txTail) :
    (jshGetCharToTransmit false (_putc s b) device).1 = (b : Int)
      ∧ (jshGetCharToTransmit false (_putc s b) device).1 ≠ -1
      ∧ (jshGetCharToTransmit false (_putc s b) device).2.txHead
          = (jshGetCharToTransmit false (_putc s b) device).2.txTail
      ∧ ∀ (t : BootState) (d : Nat),
          (jshGetCharToTransmit false t d).1 = -1 ↔ t.txHead = t.txTail := by
  have hne : (s.txTail + 1) % 8192 ≠ s.txTail := by
    have := Nat.mod_lt (s.txTail + 1) (show 0 < 8192 by decide)
    omega
  have hval : (jshGetCharToTransmit false (_putc s b) device).1 = (b : Int) := by
    simp [jshGetCharToTransmit, _putc, and_BUFFERMASK, hempty, hne, charToInt, toCharBits,
      Nat.mod_eq_of_lt hb]
  refine ⟨hval, by rw [hval]; omega, ?_, ?_⟩
  · simp [jshGetCharToTransmit, _putc, and_BUFFERMASK, hempty, hne]
  · intro t d
    by_cases h : t.txHead = t.txTail
    · simp [jshGetCharToTransmit, h]
    · simp only [jshGetCharToTransmit, h, if_false, charToInt, iff_false]
      simp only [Bool.false_and]
      intro hc
      have hc2 : ((t.txBuffer t.txTail % 256 : Nat) : Int) = -1 := by simpa using hc
      omega

/-- With plain `char` signed: for every byte `b` in `0x80..0xFF` and every state
whose TX buffer is empty, `_putc(b)` followed by `jshGetCharToTransmit` returns
the negative value `b - 256` and not `b`. -/
theorem tx_round_trip_char_signed_high (s : BootState) (b device : Nat)
    (hlo : 128 ≤ b) (hb : b < 256) (hempty : s.txHead = s.txTail) :
    (jshGetCharToTransmit true (_putc s b) device).1 = (b : Int) - 256
      ∧ (jshGetCharToTransmit true (_putc s b) device).1 < 0 := by
  have hne : (s.txTail + 1) % 8192 ≠ s.txTail := by
    have := Nat.mod_lt (s.txTail + 1) (show 0 < 8192 by decide)
    omega
  have hval : (jshGetCharToTransmit true (_putc s b) device).1 = (b : Int) - 256 := by
    simp [jshGetCharToTransmit, _putc, and_BUFFERMASK, hempty, hne, charToInt, toCharBits,
      Nat.mod_eq_of_lt hb, hlo]
  exact ⟨hval, by rw [hval]; omega⟩

/-- C5: for every level the hardware reports for the boot-button pin,
`isButtonPressed` returns true exactly when the level, as the `bool` that
`jshPinGetValue` makes of it, equals `BTN1_ONSTATE`: with `BTN1_ONSTATE = 0`
exactly when the pin reads low, with `BTN1_ONSTATE = 1` exactly when it reads
high, and for the same pin level the two configurations give opposite
results. -/
theorem C5_boot_decision (b : Board) :
    (isButtonPressed b = true ↔
        (if buttonLevel b ≠ 0 then (1 : Int) else 0) = b.BTN1_ONSTATE)
      ∧ (isButtonPressed { b with BTN1_ONSTATE := 0 } = true ↔ buttonLevel b = 0)
      ∧ (isButtonPressed { b with BTN1_ONSTATE := 1 } = true ↔ buttonLevel b ≠ 0)
      ∧ isButtonPressed { b with BTN1_ONSTATE := 0 }
          = !isButtonPressed { b with BTN1_ONSTATE := 1 } := by
  by_cases h : b.GPIO_ReadInputDataBit (stmPort b b.BTN1_PININDEX) (stmPin b b.BTN1_PININDEX) = 0
  · simp [isButtonPressed, jshPinGetValue, buttonLevel, stmPort, stmPin] at h ⊢
    simp [h]
  · simp [isButtonPressed, jshPinGetValue, buttonLevel, stmPort, stmPin] at h ⊢
    simp [h]

/-! ## Jump gate (C2, C6) -/

/-- C2, the code at the failing input: with `ESPRUINO_BINARY_ADDRESS = 0x2800`
and the reset-vector slot `0x08002804` holding `0xFFFFFFFF` (erased flash), or
holding `0x00000000`, `jumpToEspruinoBinary` does not return false: it hands
the sentinel word to the control-transfer call, because the test
`ResetHandler==0 || ResetHandler==0xFFFFFFFF` is made on the slot's address and
not on the word stored there. -/
theorem C2_sentinel_word_is_jumped_to :
    resetHandlerAddress 0x2800 = 0x08002804
      ∧ jumpToEspruinoBinary 0x2800 (fun a => if a = 0x08002804 then 0xFFFFFFFF else 0)
          = { transfers := [0xFFFFFFFF], result := true }
      ∧ jumpToEspruinoBinary 0x2800 (fun a => if a = 0x08002804 then 0 else 0x08000205)
          = { transfers := [0], result := true } := by
  decide

/-- C6: when the reset-vector slot `0x08000000 + ESPRUINO_BINARY_ADDRESS + 4`
is a word inside the 32-bit address space, for every 32-bit value `v` other
than `0x00000000` and `0xFFFFFFFF` stored there, `jumpToEspruinoBinary` makes
the control-transfer call exactly once, with target exactly `v`. -/
theorem C6_valid_image_jump (ESPRUINO_BINARY_ADDRESS : Nat) (mem : Nat → Nat) (v : Nat)
    (haddr : 0x08000000 + ESPRUINO_BINARY_ADDRESS + 4 + 4 ≤ 2 ^ 32)
    (hword : mem (0x08000000 + ESPRUINO_BINARY_ADDRESS + 4) = v)
    (hv : v < 2 ^ 32) (hv0 : v ≠ 0x00000000) (hv1 : v ≠ 0xFFFFFFFF) :
    (jumpToEspruinoBinary ESPRUINO_BINARY_ADDRESS mem).transfers = [v]
      ∧ (jumpToEspruinoBinary ESPRUINO_BINARY_ADDRESS mem).transfers.length = 1
      ∧ ∀ target ∈ (jumpToEspruinoBinary ESPRUINO_BINARY_ADDRESS mem).transfers,
          target = v := by
  have ha : resetHandlerAddress ESPRUINO_BINARY_ADDRESS
      = 0x08000000 + ESPRUINO_BINARY_ADDRESS + 4 := by
    unfold resetHandlerAddress
    apply Nat.mod_eq_of_lt
    omega
  have h0 : ¬ (resetHandlerAddress ESPRUINO_BINARY_ADDRESS = 0
      ∨ resetHandlerAddress ESPRUINO_BINARY_ADDRESS = 0xFFFFFFFF) := by
    rw [ha]
    norm_num at haddr ⊢
    omega
  have ht : (jumpToEspruinoBinary ESPRUINO_BINARY_ADDRESS mem).transfers = [v] := by
    simp only [jumpToEspruinoBinary, h0, if_false]
    rw [ha, hword, Nat.mod_eq_of_lt hv]
  refine ⟨ht, by rw [ht]; rfl, ?_⟩
  intro target htarget
  rw [ht] at htarget
  exact List.mem_singleton.mp htarget

/-- C6, witness: with `ESPRUINO_BINARY_ADDRESS = 0x2800` and the slot holding
`0x08000205`, the one control transfer has target `0x08000205`. -/
theorem C6_valid_image_jump_witness :
    (jumpToEspruinoBinary 0x2800
        (fun a => if a = 0x08002804 then 0x08000205 else 0)).transfers = [0x08000205] :=
  (C6_valid_image_jump 0x2800 (fun a => if a = 0x08002804 then 0x08000205 else 0) 0x08000205
    (by decide) (by decide) (by decide) (by decide) (by decide)).1

/-! ## Single-writer frame (C11) -/

/-- C11: on the state `(rxBuffer, rxHead, rxTail, txBuffer, txHead, txTail)`,
`jshPushIOCharEvent` changes only `rxHead` and the one cell
`rxBuffer[old rxHead]`; `_getc` changes at most `rxTail`; `_putc` changes only
`txHead` and the one cell `txBuffer[old txHead]`; `jshGetCharToTransmit`
changes at most `txTail`.  So no RX operation alters a TX component and no TX
operation an RX component, the producer never writes the read index, and the
consumer never writes the write index or the buffer contents. -/
theorem C11_single_writer_frame (plainCharSigned : Bool) (s : BootState)
    (channel charData device : Nat) :
    ((jshPushIOCharEvent s channel charData).rxTail = s.rxTail
        ∧ (jshPushIOCharEvent s channel charData).txBuffer = s.txBuffer
        ∧ (jshPushIOCharEvent s channel charData).txHead = s.txHead
        ∧ (jshPushIOCharEvent s channel charData).txTail = s.txTail
        ∧ ∀ i, i ≠ s.rxHead → (jshPushIOCharEvent s channel charData).rxBuffer i = s.rxBuffer i)
      ∧ ((_getc s).2.rxBuffer = s.rxBuffer
        ∧ (_getc s).2.rxHead = s.rxHead
        ∧ (_getc s).2.txBuffer = s.txBuffer
        ∧ (_getc s).2.txHead = s.txHead
        ∧ (_getc s).2.txTail = s.txTail)
      ∧ ((_putc s charData).txTail = s.txTail
        ∧ (_putc s charData).rxBuffer = s.rxBuffer
        ∧ (_putc s charData).rxHead = s.rxHead
        ∧ (_putc s charData).rxTail = s.rxTail
        ∧ ∀ i, i ≠ s.txHead → (_putc s charData).txBuffer i = s.txBuffer i)
      ∧ ((jshGetCharToTransmit plainCharSigned s device).2.txBuffer = s.txBuffer
        ∧ (jshGetCharToTransmit plainCharSigned s device).2.txHead = s.txHead
        ∧ (jshGetCharToTransmit plainCharSigned s device).2.rxBuffer = s.rxBuffer
        ∧ (jshGetCharToTransmit plainCharSigned s device).2.rxHead = s.rxHead
        ∧ (jshGetCharToTransmit plainCharSigned s device).2.rxTail = s.rxTail) := by
  refine ⟨⟨rfl, rfl, rfl, rfl, ?_⟩, ?_, ⟨rfl, rfl, rfl, rfl, ?_⟩, ?_⟩
  · intro i hi
    simp [jshPushIOCharEvent, hi]
  · by_cases h : s.rxHead = s.rxTail
    · simp [_getc, h]
    · simp [_getc, h]
  · intro i hi
    simp [_putc, hi]
  · by_cases h : s.txHead = s.txTail
    · simp [jshGetCharToTransmit, h]
    · simp [jshGetCharToTransmit, h]

/-! ## Index bounds (C14) -/

theorem runCall_indicesInRange (plainCharSigned : Bool) (s : BootState) (c : Call)
    (h : IndicesInRange s) : IndicesInRange (runCall plainCharSigned s c).2 := by
  obtain ⟨h1, h2, h3, h4⟩ := h
  have hm : ∀ i : Nat, (i + 1) &&& BUFFERMASK < 8192 := by
    intro i
    rw [and_BUFFERMASK]
    exact Nat.mod_lt _ (by decide)
  cases c with
  | pushIOCharEvent channel charData =>
    exact ⟨hm _, h2, h3, h4⟩
  | getc =>
    by_cases he : s.rxHead = s.rxTail
    · simp only [runCall, _getc, he, if_true]
      exact ⟨he ▸ h1, h2, h3, h4⟩
    · simp only [runCall, _getc, he, if_false]
      exact ⟨h1, hm _, h3, h4⟩
  | putc charData =>
    exact ⟨h1, h2, hm _, h4⟩
  | getCharToTransmit device =>
    by_cases he : s.txHead = s.txTail
    · simp only [runCall, jshGetCharToTransmit, he, if_true]
      exact ⟨h1, h2, he ▸ h3, h4⟩
    · simp only [runCall, jshGetCharToTransmit, he, if_false]
      exact ⟨h1, h2, h3, hm _⟩

theorem runCalls_indicesInRange (plainCharSigned : Bool) (calls : List Call) :
    ∀ s : BootState, IndicesInRange s → IndicesInRange (runCalls plainCharSigned calls s).2 := by
  induction calls with
  | nil => intro s h; exact h
  | cons c cs ih =>
    intro s h
    simp only [runCalls]
    exact ih _ (runCall_indicesInRange plainCharSigned s c h)

/-- C14: starting from the start-up state (all four indices 0), after every
finite sequence of `jshPushIOCharEvent`, `_getc`, `_putc` and
`jshGetCharToTransmit` calls, `rxHead`, `rxTail`, `txHead` and `txTail` all lie
in `0..8191` (`= BUFFERMASK`), so the array cell any further call of the four
reads or writes is inside the 8192-cell array; each index update
`(index + 1) & 8191` equals `(index + 1) mod 8192`. -/
theorem C14_index_bounds (plainCharSigned : Bool) (calls : List Call) :
    ((runCalls plainCharSigned calls initState).2.rxHead ≤ BUFFERMASK
        ∧ (runCalls plainCharSigned calls initState).2.rxTail ≤ BUFFERMASK
        ∧ (runCalls plainCharSigned calls initState).2.txHead ≤ BUFFERMASK
        ∧ (runCalls plainCharSigned calls initState).2.txTail ≤ BUFFERMASK)
      ∧ (∀ (c : Call) (i : Nat),
          accessedIndex (runCalls plainCharSigned calls initState).2 c = some i →
            i < BUFFERMASK + 1)
      ∧ ∀ index : Nat, (index + 1) &&& BUFFERMASK = (index + 1) % 8192 := by
  have h0 : IndicesInRange initState := by
    refine ⟨?_, ?_, ?_, ?_⟩ <;> decide
  obtain ⟨h1, h2, h3, h4⟩ := runCalls_indicesInRange plainCharSigned calls initState h0
  refine ⟨?_, ?_, fun index => and_BUFFERMASK _⟩
  · simp only [BUFFERMASK]
    omega
  · intro c i hi
    simp only [BUFFERMASK]
    cases c with
    | pushIOCharEvent channel charData =>
      simp only [accessedIndex, Option.some.injEq] at hi
      omega
    | getc =>
      simp only [accessedIndex] at hi
      split at hi
      · cases hi
      · simp only [Option.some.injEq] at hi
        omega
    | putc charData =>
      simp only [accessedIndex, Option.some.injEq] at hi
      omega
    | getCharToTransmit device =>
      simp only [accessedIndex] at hi
      split at hi
      · cases hi
      · simp only [Option.some.injEq] at hi
        omega

/-! ## Boot control flow (C13) -/

theorem jump_transfers_cases (E : Nat) (mem : Nat → Nat) :
    (jumpToEspruinoBinary E mem).transfers = []
      ∨ ∃ v, (jumpToEspruinoBinary E mem).transfers = [v] := by
  unfold jumpToEspruinoBinary
  simp only []
  split
  · exact Or.inl rfl
  · exact Or.inr ⟨_, rfl⟩

theorem gpioClockEnables_cases (cfg : BuildConfig) :
    gpioClockEnables cfg
        = [HwCall.RCC_APB1PeriphClockCmd_PWR, HwCall.RCC_AHBPeriphClockCmd_GPIOA_to_GPIOF]
      ∨ gpioClockEnables cfg
        = [HwCall.RCC_APB2PeriphClockCmd_SYSCFG, HwCall.RCC_AHB1PeriphClockCmd_GPIOA_to_GPIOH]
      ∨ gpioClockEnables cfg
        = [HwCall.RCC_APB1PeriphClockCmd_PWR,
            HwCall.RCC_APB2PeriphClockCmd_ADC1_GPIOA_to_GPIOG_AFIO] := by
  unfold gpioClockEnables
  split_ifs
  · exact Or.inl rfl
  · exact Or.inr (Or.inl rfl)
  · exact Or.inr (Or.inr rfl)

theorem usbInit_cases (cfg : BuildConfig) :
    usbInit cfg = [HwCall.USB_Init_Hardware, HwCall.USB_Init]
      ∨ usbInit cfg = [HwCall.MX_USB_DEVICE_Init] := by
  unfold usbInit
  split_ifs
  · exact Or.inl rfl
  · exact Or.inr rfl

theorem jshPinOutput_cases (cfg : BuildConfig) (b : Board) (pin : Nat) :
    jshPinOutput cfg b pin true
        = [HwCall.GPIO_Init (stmPort b pin) (stmPin b pin),
            HwCall.GPIO_SetBits (stmPort b pin) (stmPin b pin)]
      ∨ jshPinOutput cfg b pin true
        = [HwCall.GPIO_Init (stmPort b pin) (stmPin b pin),
            HwCall.write_BSRR (stmPort b pin) (stmPin b pin)] := by
  unfold jshPinOutput
  by_cases h : cfg.STM32API2 = true
  · exact Or.inl (by simp [h])
  · exact Or.inr (by simp [h])

theorem bootloaderBringUp_cases (cfg : BuildConfig) :
    bootloaderBringUp cfg
        = HwCall.NVIC_PriorityGroupConfig ::
            ([HwCall.RCC_PCLK1Config, HwCall.RCC_PCLK2Config, HwCall.GPIO_PinRemapConfig,
                HwCall.SysTick_CLKSourceConfig]
              ++ HwCall.SysTick_Config :: ([HwCall.NVIC_SetPriority] ++ usbInit cfg))
      ∨ bootloaderBringUp cfg
        = HwCall.NVIC_PriorityGroupConfig ::
            ([HwCall.RCC_PCLK1Config, HwCall.RCC_PCLK2Config, HwCall.SysTick_CLKSourceConfig]
              ++ HwCall.SysTick_Config :: ([HwCall.NVIC_SetPriority] ++ usbInit cfg)) := by
  unfold bootloaderBringUp
  split_ifs
  · exact Or.inl rfl
  · exact Or.inr rfl

theorem counts_beforeDecision (cfg : BuildConfig) (b : Board) :
    (beforeDecision cfg b).countP HwCall.isPinRead = 1
      ∧ (beforeDecision cfg b).countP HwCall.isJumpCall = 0
      ∧ (beforeDecision cfg b).count HwCall.NVIC_PriorityGroupConfig = 0
      ∧ (beforeDecision cfg b).count HwCall.SysTick_Config = 0 := by
  unfold beforeDecision
  rcases gpioClockEnables_cases cfg with h | h | h <;>
  rcases jshPinOutput_cases cfg b cfg.LED1_PININDEX with g | g <;>
  rw [h, g] <;>
  simp [List.countP_cons, List.count_cons, HwCall.isPinRead, HwCall.isJumpCall]

theorem counts_bootloaderBringUp (cfg : BuildConfig) :
    (bootloaderBringUp cfg).countP HwCall.isPinRead = 0
      ∧ (bootloaderBringUp cfg).countP HwCall.isJumpCall = 0
      ∧ (bootloaderBringUp cfg).count HwCall.NVIC_PriorityGroupConfig = 1
      ∧ (bootloaderBringUp cfg).count HwCall.SysTick_Config = 1 := by
  rcases bootloaderBringUp_cases cfg with h | h <;>
  rcases usbInit_cases cfg with g | g <;>
  rw [h, g] <;>
  simp [List.countP_cons, List.count_cons, HwCall.isPinRead, HwCall.isJumpCall]

theorem counts_jump (l : List Nat) :
    (HwCall.jumpToEspruinoBinary :: l.map HwCall.startPtr).countP HwCall.isPinRead = 0
      ∧ (HwCall.jumpToEspruinoBinary :: l.map HwCall.startPtr).countP HwCall.isJumpCall = 1
      ∧ (HwCall.jumpToEspruinoBinary :: l.map HwCall.startPtr).count
          HwCall.NVIC_PriorityGroupConfig = 0
      ∧ (HwCall.jumpToEspruinoBinary :: l.map HwCall.startPtr).count HwCall.SysTick_Config = 0 := by
  induction l with
  | nil => simp [List.countP_cons, List.count_cons, HwCall.isPinRead, HwCall.isJumpCall]
  | cons v vs ih =>
    simp only [List.map_cons, List.countP_cons, List.count_cons] at ih ⊢
    simpa [HwCall.isPinRead, HwCall.isJumpCall] using ih

theorem isOther_gpioClockEnables (cfg : BuildConfig) :
    ∀ e ∈ gpioClockEnables cfg, e.isOther = true := by
  rcases gpioClockEnables_cases cfg with h | h | h <;> rw [h] <;> simp [HwCall.isOther]

theorem isOther_usbInit (cfg : BuildConfig) : ∀ e ∈ usbInit cfg, e.isOther = true := by
  rcases usbInit_cases cfg with h | h <;> rw [h] <;> simp [HwCall.isOther]

theorem isOther_jshPinOutput (cfg : BuildConfig) (b : Board) (pin : Nat) :
    ∀ e ∈ jshPinOutput cfg b pin true, e.isOther = true := by
  rcases jshPinOutput_cases cfg b pin with h | h <;> rw [h] <;> simp [HwCall.isOther]

theorem bringUp_shape (cfg : BuildConfig) (b : Board) :
    ∃ l1 l2 l3,
      beforeDecision cfg b
          = gpioClockEnables cfg ++ l1
            ++ [HwCall.GPIO_ReadInputDataBit (stmPort b b.BTN1_PININDEX)
                (stmPin b b.BTN1_PININDEX)]
        ∧ bootloaderBringUp cfg
          = HwCall.NVIC_PriorityGroupConfig ::
              (l2 ++ HwCall.SysTick_Config :: (l3 ++ usbInit cfg))
        ∧ ∀ e ∈ gpioClockEnables cfg ++ l1 ++ l2 ++ l3 ++ usbInit cfg, e.isOther = true := by
  have hbefore : beforeDecision cfg b
      = gpioClockEnables cfg
        ++ (HwCall.GPIO_Init (stmPort b b.BTN1_PININDEX) (stmPin b b.BTN1_PININDEX)
            :: jshPinOutput cfg b cfg.LED1_PININDEX true)
        ++ [HwCall.GPIO_ReadInputDataBit (stmPort b b.BTN1_PININDEX)
            (stmPin b b.BTN1_PININDEX)] := by
    simp [beforeDecision]
  have hl1 : ∀ e ∈ HwCall.GPIO_Init (stmPort b b.BTN1_PININDEX) (stmPin b b.BTN1_PININDEX)
      :: jshPinOutput cfg b cfg.LED1_PININDEX true, e.isOther = true := by
    intro e he
    rcases List.mem_cons.mp he with h | h
    · rw [h]; rfl
    · exact isOther_jshPinOutput cfg b _ e h
  have hall : ∀ l2 l3 : List HwCall, (∀ e ∈ l2, e.isOther = true) →
      (∀ e ∈ l3, e.isOther = true) →
      ∀ e ∈ gpioClockEnables cfg
        ++ (HwCall.GPIO_Init (stmPort b b.BTN1_PININDEX) (stmPin b b.BTN1_PININDEX)
            :: jshPinOutput cfg b cfg.LED1_PININDEX true)
        ++ l2 ++ l3 ++ usbInit cfg, e.isOther = true := by
    intro l2 l3 h2 h3 e he
    rcases List.mem_append.mp he with he | he
    · rcases List.mem_append.mp he with he | he
      · rcases List.mem_append.mp he with he | he
        · rcases List.mem_append.mp he with he | he
          · exact isOther_gpioClockEnables cfg e he
          · exact hl1 e he
        · exact h2 e he
      · exact h3 e he
    · exact isOther_usbInit cfg e he
  rcases bootloaderBringUp_cases cfg with h | h
  · exact ⟨_, _, _, hbefore, h, hall _ _ (by simp [HwCall.isOther]) (by simp [HwCall.isOther])⟩
  · exact ⟨_, _, _, hbefore, h, hall _ _ (by simp [HwCall.isOther]) (by simp [HwCall.isOther])⟩

/-- C13: in `initHardware`, as a trace of calls, the button pin is read exactly
once (and it is the boot button's pin that is read); `jumpToEspruinoBinary` is
invoked exactly when that sample says the button is not pressed, and then once;
the run continues past the jump block exactly when the button is pressed, or
the jump attempt made no control transfer, or the application returned.
Whenever it continues, the trace is, in this order: the GPIO clock enables,
further calls, the button sample, the jump attempt (the invocation and its
control transfer; nothing when the button is pressed),
`NVIC_PriorityGroupConfig`, further calls, `SysTick_Config`, further calls, and
at the very end the USB bring-up; none of the further calls, clock enables and
USB calls is a pin read, a jump, a control transfer or one of the two named
calls, so the sample and the jump attempt come before all of the bootloader
bring-up and each named call occurs once.  When it does not continue, the
trace ends with the control transfer and no bring-up call has been made. -/
theorem C13_boot_control_flow (cfg : BuildConfig) (b : Board) (mem : Nat → Nat)
    (appReturns : Bool) :
    ((initHardware cfg b mem appReturns).trace.countP HwCall.isPinRead = 1
        ∧ HwCall.GPIO_ReadInputDataBit (stmPort b b.BTN1_PININDEX) (stmPin b b.BTN1_PININDEX)
            ∈ (initHardware cfg b mem appReturns).trace)
      ∧ (initHardware cfg b mem appReturns).trace.countP HwCall.isJumpCall
          = (if isButtonPressed b then 0 else 1)
      ∧ ((initHardware cfg b mem appReturns).completed = true ↔
          (isButtonPressed b = true
            ∨ (jumpToEspruinoBinary cfg.ESPRUINO_BINARY_ADDRESS mem).transfers = []
            ∨ appReturns = true))
      ∧ ((initHardware cfg b mem appReturns).completed = true →
          (∃ l1 l2 l3, (initHardware cfg b mem appReturns).trace
              = gpioClockEnables cfg ++ l1
                ++ HwCall.GPIO_ReadInputDataBit (stmPort b b.BTN1_PININDEX)
                    (stmPin b b.BTN1_PININDEX) ::
                  ((if isButtonPressed b then []
                      else HwCall.jumpToEspruinoBinary ::
                        (jumpToEspruinoBinary cfg.ESPRUINO_BINARY_ADDRESS mem).transfers.map
                          HwCall.startPtr)
                    ++ HwCall.NVIC_PriorityGroupConfig ::
                      (l2 ++ HwCall.SysTick_Config :: (l3 ++ usbInit cfg)))
              ∧ ∀ e ∈ gpioClockEnables cfg ++ l1 ++ l2 ++ l3 ++ usbInit cfg,
                  e.isOther = true)
            ∧ (initHardware cfg b mem appReturns).trace.count
                HwCall.NVIC_PriorityGroupConfig = 1
            ∧ (initHardware cfg b mem appReturns).trace.count HwCall.SysTick_Config = 1)
      ∧ ((initHardware cfg b mem appReturns).completed = false →
          ∃ l1, (initHardware cfg b mem appReturns).trace
              = gpioClockEnables cfg ++ l1
                ++ HwCall.GPIO_ReadInputDataBit (stmPort b b.BTN1_PININDEX)
                    (stmPin b b.BTN1_PININDEX) ::
                  HwCall.jumpToEspruinoBinary ::
                    (jumpToEspruinoBinary cfg.ESPRUINO_BINARY_ADDRESS mem).transfers.map
                      HwCall.startPtr
            ∧ (jumpToEspruinoBinary cfg.ESPRUINO_BINARY_ADDRESS mem).transfers ≠ []
            ∧ ∀ e ∈ gpioClockEnables cfg ++ l1, e.isOther = true)
      ∧ gpioClockEnables cfg ≠ []
      ∧ usbInit cfg ≠ [] := by
  obtain ⟨b1, b2, b3, b4⟩ := counts_beforeDecision cfg b
  obtain ⟨r1, r2, r3, r4⟩ := counts_bootloaderBringUp cfg
  obtain ⟨j1, j2, j3, j4⟩ :=
    counts_jump (jumpToEspruinoBinary cfg.ESPRUINO_BINARY_ADDRESS mem).transfers
  obtain ⟨l1, l2, l3, s1, s2, s3⟩ := bringUp_shape cfg b
  have hmem : HwCall.GPIO_ReadInputDataBit (stmPort b b.BTN1_PININDEX)
      (stmPin b b.BTN1_PININDEX) ∈ beforeDecision cfg b := by
    simp [beforeDecision]
  have hc : gpioClockEnables cfg ≠ [] := by
    rcases gpioClockEnables_cases cfg with h | h | h <;> rw [h] <;> simp
  have hu : usbInit cfg ≠ [] := by
    rcases usbInit_cases cfg with h | h <;> rw [h] <;> simp
  by_cases hb : isButtonPressed b = true
  · have ht : initHardware cfg b mem appReturns
        = { trace := beforeDecision cfg b ++ bootloaderBringUp cfg, completed := true } := by
      simp [initHardware, hb]
    rw [ht]
    refine ⟨⟨?_, ?_⟩, ?_, ?_, ?_, ?_, hc, hu⟩
    · simp only [List.countP_append, b1, r1]
    · exact List.mem_append_left _ hmem
    · simp only [List.countP_append, b2, r2, hb, if_true]
    · simp [hb]
    · intro _
      refine ⟨⟨l1, l2, l3, ?_, s3⟩, ?_, ?_⟩
      · simp only [hb, if_true]
        conv_lhs => rw [s1, s2]
        simp only [List.append_assoc, List.singleton_append, List.nil_append]
      · simp only [List.count_append, b3, r3]
      · simp only [List.count_append, b4, r4]
    · intro h; cases h
  · by_cases hj : (jumpToEspruinoBinary cfg.ESPRUINO_BINARY_ADDRESS mem).transfers = []
        ∨ appReturns = true
    · have ht : initHardware cfg b mem appReturns
          = { trace := beforeDecision cfg b
                ++ (HwCall.jumpToEspruinoBinary ::
                  (jumpToEspruinoBinary cfg.ESPRUINO_BINARY_ADDRESS mem).transfers.map
                    HwCall.startPtr)
                ++ bootloaderBringUp cfg,
              completed := true } := by
        simp only [initHardware, hb, hj]
        simp
      rw [ht]
      refine ⟨⟨?_, ?_⟩, ?_, ?_, ?_, ?_, hc, hu⟩
      · simp only [List.countP_append, b1, r1, j1]
      · exact List.mem_append_left _ (List.mem_append_left _ hmem)
      · simp only [List.countP_append, b2, r2, j2, hb]
        simp
      · simp only [true_iff]
        exact Or.inr hj
      · intro _
        refine ⟨⟨l1, l2, l3, ?_, s3⟩, ?_, ?_⟩
        · simp only [hb]
          conv_lhs => rw [s1, s2]
          simp only [List.append_assoc, List.singleton_append, List.cons_append,
            List.nil_append, Bool.false_eq_true, if_false]
        · simp only [List.count_append, b3, r3, j3]
        · simp only [List.count_append, b4, r4, j4]
      · intro h; cases h
    · have ht : initHardware cfg b mem appReturns
          = { trace := beforeDecision cfg b
                ++ (HwCall.jumpToEspruinoBinary ::
                  (jumpToEspruinoBinary cfg.ESPRUINO_BINARY_ADDRESS mem).transfers.map
                    HwCall.startPtr),
              completed := false } := by
        simp only [initHardware, hb, hj]
        simp
      rw [ht]
      refine ⟨⟨?_, ?_⟩, ?_, ?_, ?_, ?_, hc, hu⟩
      · simp only [List.countP_append, b1, j1]
      · exact List.mem_append_left _ hmem
      · simp only [List.countP_append, b2, j2, hb]
        simp
      · constructor
        · intro h; cases h
        · intro h
          rcases h with h | h
          · exact absurd h hb
          · exact absurd h hj
      · intro h; cases h
      · intro _
        refine ⟨l1, ?_, fun h => hj (Or.inl h), ?_⟩
        · conv_lhs => rw [s1]
          simp only [List.append_assoc, List.singleton_append]
        · intro e he
          apply s3 e
          simp only [List.mem_append] at he ⊢
          rcases he with he | he
          · exact Or.inl (Or.inl (Or.inl (Or.inl he)))
          · exact Or.inl (Or.inl (Or.inl (Or.inr he)))

/-! ## Font scale (C12) -/

/-- C12: for every integer `scale`, `jswrap_graphics_setFont12x20(parent, scale)`
calls `jswrap_graphics_setFontCustom` exactly once, with first character code 32
and, writing `s` for `scale` when `scale ≥ 1` and for 1 otherwise, a height
argument whose low 8 bits are always 20 and which, as long as `s << 8` does not
overflow a 32-bit `int`, is `20 + (s << 8)` with `s` in the bits above; a scale
below 1 gives the same call as scale 1. -/
theorem C12_font_scale (parent : Nat) (scale : Int) :
    (jswrap_graphics_setFont12x20 parent scale).length = 1
      ∧ (∀ call ∈ jswrap_graphics_setFont12x20 parent scale,
          call.firstChar = 32
            ∧ call.parent = parent ∧ call.bitmap = fontBitmap ∧ call.width = fontWidths
            ∧ call.height % 256 = 20
            ∧ ((if 1 ≤ scale then scale else 1) * 2 ^ 8 < 2 ^ 31 →
                call.height = 20 + (if 1 ≤ scale then scale else 1) * 2 ^ 8
                  ∧ call.height / 256 = (if 1 ≤ scale then scale else 1)))
      ∧ (scale < 1 →
          jswrap_graphics_setFont12x20 parent scale = jswrap_graphics_setFont12x20 parent 1) := by
  refine ⟨rfl, ?_, ?_⟩
  · intro call hcall
    simp only [jswrap_graphics_setFont12x20, List.mem_singleton] at hcall
    subst hcall
    simp only [true_and]
    by_cases h : scale < 1
    · have h1 : ¬ (1 ≤ scale) := by omega
      simp only [h, h1, if_true, if_false, toInt32]
      norm_num
    · have h1 : 1 ≤ scale := by omega
      simp only [h, h1, if_true, if_false, toInt32]
      norm_num
      constructor
      · omega
      · intro hs
        omega
  · intro h
    simp [jswrap_graphics_setFont12x20, h]

/-! ## Font tables (C15) -/

set_option maxRecDepth 20000

theorem fontWidths_length : fontWidths.length = 224 := by decide

theorem fontWidths_sum : fontWidths.sum = 1889 := by decide

theorem fontBitmap_length : fontBitmap.length = 4723 := by
  unfold fontBitmap
  rw [List.length_flatten]
  decide

theorem sum_take_le_sum (l : List Nat) (n : Nat) : (l.take n).sum ≤ l.sum := by
  have h := List.sum_take_add_sum_drop l n
  omega

theorem sum_take_le_sum_take_succ (l : List Nat) (n : Nat) :
    (l.take n).sum ≤ (l.take (n + 1)).sum := by
  have h := sum_take_le_sum (l.take (n + 1)) n
  rwa [List.take_take, Nat.min_eq_left (Nat.le_succ n)] at h

/-- C15: `fontWidths` has exactly 224 entries, one per character code `32..255`;
`fontBitmap` has exactly `ceil(20 * (sum of all widths) / 8)` bytes; so for
every character code `c` in `32..255` the bit range from
`20 * (sum of the widths before c)` up to
`20 * (sum of the widths up to and including c)` lies inside `fontBitmap`. -/
theorem C15_font_tables :
    fontWidths.length = 224
      ∧ fontWidths.length = 255 - 32 + 1
      ∧ fontBitmap.length = (20 * fontWidths.sum + 7) / 8
      ∧ ∀ c : Nat, 32 ≤ c → c ≤ 255 →
          c - 32 < fontWidths.length
            ∧ 20 * (fontWidths.take (c - 32)).sum ≤ 20 * (fontWidths.take (c - 32 + 1)).sum
            ∧ 20 * (fontWidths.take (c - 32 + 1)).sum ≤ 8 * fontBitmap.length := by
  refine ⟨fontWidths_length, fontWidths_length, ?_, ?_⟩
  · rw [fontBitmap_length, fontWidths_sum]
  · intro c h1 h2
    have ha := sum_take_le_sum_take_succ fontWidths (c - 32)
    have hb := sum_take_le_sum fontWidths (c - 32 + 1)
    rw [fontWidths_sum] at hb
    rw [fontWidths_length, fontBitmap_length]
    omega

end StmBoot
